import Mathlib

set_option maxRecDepth 8000

/-!
Shallow embedding of the rule-based PHP code-smell analysis engine of this
repository (ai_cr_tools): the line-scanning issue detectors and the
classifier decision logic of code_smell_detector.py, the fallback-parser
control flow of php_parser.py, and the inheritance-depth computation of
feature_extractor.py.  Source lines and file contents are modelled as Lean
String values; each Python regex search used by the code is compiled by
hand into a deterministic scanner (for every pattern involved, greedy
maximal-munch matching agrees with Python backtracking semantics, as the
character classes adjacent to each star/plus are disjoint).
-/

/-- Brace characters, via code points, so string literals stay brace-free. -/
def chOpen : Char := Char.ofNat 123

/-- Closing brace character. -/
def chClose : Char := Char.ofNat 125

/-- Double-quote character. -/
def chDq : Char := Char.ofNat 34

/-- Single-quote character. -/
def chSq : Char := Char.ofNat 39

/-- Python str.strip() default whitespace set, which is also the regex
class backslash-s for the ASCII inputs handled here. -/
def pyIsWs (c : Char) : Bool :=
  c = ' ' || c = Char.ofNat 9 || c = Char.ofNat 10 || c = Char.ofNat 13 ||
  c = Char.ofNat 11 || c = Char.ofNat 12

/-- Python regex word character (ASCII fragment of backslash-w; the inputs
scanned by the detectors are ASCII PHP source). -/
def isWordCh (c : Char) : Bool := c.isAlphanum || c = '_'

/-- Python str.strip() on a character list. -/
def pyStripL (cs : List Char) : List Char :=
  ((cs.dropWhile pyIsWs).reverse.dropWhile pyIsWs).reverse

/-- Python str.strip(). -/
def pyStrip (s : String) : String := ⟨pyStripL s.data⟩

/-- Python str.rstrip(). -/
def pyRstrip (s : String) : String := ⟨(s.data.reverse.dropWhile pyIsWs).reverse⟩

/-- Python str.lower() (ASCII). -/
def pyLower (s : String) : String := ⟨s.data.map Char.toLower⟩

/-- Substring test on character lists: Python `needle in hay`. -/
def isSubL (needle : List Char) : List Char → Bool
  | [] => needle.isEmpty
  | c :: t => needle.isPrefixOf (c :: t) || isSubL needle t

/-- Python `needle in hay` on strings. -/
def strIn (needle hay : String) : Bool := isSubL needle.data hay.data

/-- Case-insensitive substring test (both sides lowered). -/
def strInCI (needle hay : String) : Bool :=
  isSubL (pyLower needle).data (pyLower hay).data

/-- Python str.count for a single character. -/
def chCount (c : Char) (s : String) : Nat := s.data.count c

/-- Python str.split(sep) for a one-character separator. -/
def splitOn1 (sep : Char) : List Char → List (List Char)
  | [] => [[]]
  | c :: t =>
    let r := splitOn1 sep t
    if c = sep then [] :: r
    else
      match r with
      | [] => [[c]]
      | g :: gs => (c :: g) :: gs

/-- The parameter-list parse shared by the two long-parameter detectors:
`[p.strip() for p in s.split(",") if p.strip()]`. -/
def splitParams (s : String) : List String :=
  ((splitOn1 ',' s.data).map (fun g => pyStrip ⟨g⟩)).filter (fun p => p ≠ "")

/-- Match a literal (given lowercase) case-insensitively at the head,
returning the rest. -/
def litCIAt : List Char → List Char → Option (List Char)
  | [], cs => some cs
  | _ :: _, [] => none
  | l :: lt, c :: ct => if c.toLower = l then litCIAt lt ct else none

/-- Match a literal case-sensitively at the head, returning the rest. -/
def litAt : List Char → List Char → Option (List Char)
  | [], cs => some cs
  | _ :: _, [] => none
  | l :: lt, c :: ct => if c = l then litAt lt ct else none

/-- Regex `\s+` at the head (at least one whitespace, maximal munch). -/
def wsPlus : List Char → Option (List Char)
  | [] => none
  | c :: t => if pyIsWs c then some (t.dropWhile pyIsWs) else none

/-- Regex `\s*` at the head. -/
def wsStar (cs : List Char) : List Char := cs.dropWhile pyIsWs

/-- Regex `\w+` at the head: the maximal nonempty word run and the rest. -/
def wordPlus (cs : List Char) : Option (List Char × List Char) :=
  let p := cs.span isWordCh
  if p.1.isEmpty then none else some p

/-- Regex `\d+` at the head. -/
def digitPlus (cs : List Char) : Option (List Char) :=
  match cs with
  | [] => none
  | c :: t => if c.isDigit then some (t.dropWhile Char.isDigit) else none

/-- re.search driver: try a position matcher on every suffix, leftmost
success first. -/
def searchL (f : List Char → Option α) : List Char → Option α
  | [] => f []
  | c :: t =>
    match f (c :: t) with
    | some r => some r
    | none => searchL f t

/-- Boolean re.search driver. -/
def existsPos (f : List Char → Bool) : List Char → Bool
  | [] => f []
  | c :: t => f (c :: t) || existsPos f t

/-- Position matcher for `function\s+(\w+)\s*\(([^)]*)\)` (used with
re.IGNORECASE in _find_long_parameter_lists); also covers the
`function\s+([a-zA-Z_][a-zA-Z0-9_]*)\s*\(([^)]*)\)` variant of
_find_long_methods when `strictHead` is true, since `[a-zA-Z_]` restricts
only the first name character. -/
def tryFuncSig (strictHead : Bool) (cs : List Char) : Option (List Char × List Char) :=
  match litCIAt "function".data cs with
  | none => none
  | some r1 =>
    match wsPlus r1 with
    | none => none
    | some r2 =>
      match r2 with
      | [] => none
      | c :: _ =>
        if strictHead && !(c.isAlpha || c = '_') then none
        else
          match wordPlus r2 with
          | none => none
          | some (nm, r3) =>
            match wsStar r3 with
            | '(' :: r5 =>
              let p := r5.span (fun d => d ≠ ')')
              match p.2 with
              | ')' :: _ => some (nm, p.1)
              | _ => none
            | _ => none

/-- re.search of `function\s+([a-zA-Z_][a-zA-Z0-9_]*)\s*\(([^)]*)\)`
(re.IGNORECASE), groups (name, params), as in _find_long_methods. -/
def funcSigSearchStrict (s : String) : Option (String × String) :=
  match searchL (tryFuncSig true) s.data with
  | some (nm, ps) => some (⟨nm⟩, ⟨ps⟩)
  | none => none

/-- re.search of `function\s+(\w+)\s*\(([^)]*)\)` (re.IGNORECASE), groups
(name, params), as in _find_long_parameter_lists. -/
def funcSigSearch (s : String) : Option (String × String) :=
  match searchL (tryFuncSig false) s.data with
  | some (nm, ps) => some (⟨nm⟩, ⟨ps⟩)
  | none => none

/-- Position matcher for `function\s+(\w+)\s*\(` (no closing paren
required), as in _find_complex_methods (re.IGNORECASE). -/
def tryFuncOpen (cs : List Char) : Option (List Char) :=
  match litCIAt "function".data cs with
  | none => none
  | some r1 =>
    match wsPlus r1 with
    | none => none
    | some r2 =>
      match wordPlus r2 with
      | none => none
      | some (nm, r3) =>
        match wsStar r3 with
        | '(' :: _ => some nm
        | _ => none

/-- re.search of `function\s+(\w+)\s*\(` (re.IGNORECASE), group 1. -/
def funcOpenSearch (s : String) : Option String :=
  match searchL tryFuncOpen s.data with
  | some nm => some ⟨nm⟩
  | none => none

/-- Position matcher for `function\s+([a-zA-Z_][a-zA-Z0-9_]*)`
(re.IGNORECASE, no parenthesis), as in _find_naming_issues. -/
def tryFuncName (cs : List Char) : Option (List Char) :=
  match litCIAt "function".data cs with
  | none => none
  | some r1 =>
    match wsPlus r1 with
    | none => none
    | some r2 =>
      match r2 with
      | [] => none
      | c :: _ =>
        if c.isAlpha || c = '_' then
          match wordPlus r2 with
          | some (nm, _) => some nm
          | none => none
        else none

/-- re.search of `function\s+([a-zA-Z_][a-zA-Z0-9_]*)` (re.IGNORECASE). -/
def funcNameSearch (s : String) : Option String :=
  match searchL tryFuncName s.data with
  | some nm => some ⟨nm⟩
  | none => none

/-- Position matcher and search for `function\s+(\w+)` (case-sensitive),
as in the recursion check of _find_logic_errors. -/
def tryFuncNameCS (cs : List Char) : Option (List Char) :=
  match litAt "function".data cs with
  | none => none
  | some r1 =>
    match wsPlus r1 with
    | none => none
    | some r2 =>
      match wordPlus r2 with
      | some (nm, _) => some nm
      | none => none

/-- re.search of `function\s+(\w+)` (case-sensitive). -/
def funcNameSearchCS (s : String) : Option String :=
  match searchL tryFuncNameCS s.data with
  | some nm => some ⟨nm⟩
  | none => none

/-- re.search of `class\s+(\w+)` (re.IGNORECASE), group 1, as in
_find_naming_issues. -/
def classNameSearch (s : String) : Option String :=
  match searchL (fun cs =>
    match litCIAt "class".data cs with
    | none => none
    | some r1 =>
      match wsPlus r1 with
      | none => none
      | some r2 =>
        match wordPlus r2 with
        | some (nm, _) => some nm
        | none => none) s.data with
  | some nm => some ⟨nm⟩
  | none => none

/-- re.match of `^[A-Z][a-zA-Z0-9]*$` (PascalCase test). -/
def isPascalName (s : String) : Bool :=
  match s.data with
  | [] => false
  | c :: t => c.isUpper && t.all Char.isAlphanum

/-- re.match of `^[a-z][a-zA-Z0-9]*$` (camelCase test). -/
def isCamelName (s : String) : Bool :=
  match s.data with
  | [] => false
  | c :: t => c.isLower && t.all Char.isAlphanum

/-- Separator class of `re.split(r'[_\-\s]+', ...)`. -/
def isSepCh (c : Char) : Bool := c = '_' || c = '-' || pyIsWs c

/-- re.split(r'[_\-\s]+', s): pieces between maximal separator runs,
with empty pieces at a leading or trailing separator, as in Python. -/
def splitSeps : List Char → List (List Char)
  | [] => [[]]
  | c :: t =>
    let r := splitSeps t
    if isSepCh c then
      match t with
      | d :: _ => if isSepCh d then r else [] :: r
      | [] => [] :: r
    else
      match r with
      | [] => [[c]]
      | g :: gs => (c :: g) :: gs

/-- Python str.capitalize(): first character upper, rest lower. -/
def pyCapitalize (s : String) : String :=
  match s.data with
  | [] => ""
  | c :: t => ⟨c.toUpper :: t.map Char.toLower⟩

/-- CodeSmellDetector._to_pascal_case. -/
def to_pascal_case (name : String) : String :=
  let parts := (splitSeps (pyLower name).data).map (fun g => (⟨g⟩ : String))
  String.join ((parts.filter (fun w => w ≠ "")).map pyCapitalize)

/-- CodeSmellDetector._to_camel_case. -/
def to_camel_case (name : String) : String :=
  let parts := (splitSeps (pyLower name).data).map (fun g => (⟨g⟩ : String))
  match parts with
  | [] => name
  | p0 :: rest => p0 ++ String.join ((rest.filter (fun w => w ≠ "")).map pyCapitalize)

/-- Fueled scanner of re.findall(r'\$([A-Z_][A-Z0-9_]*)', line): the
captured groups of the non-overlapping left-to-right matches.  Fuel is
the input length (every step strictly consumes input); structural
recursion on the fuel keeps the definition kernel-reducible. -/
def findUpperVarsGo : Nat → List Char → List String
  | 0, _ => []
  | _, [] => []
  | fuel+1, '$' :: t =>
    (match t with
    | [] => []
    | c :: t2 =>
      if c.isUpper || c = '_' then
        let p := t2.span (fun d => d.isUpper || d.isDigit || d = '_')
        (⟨c :: p.1⟩ : String) :: findUpperVarsGo fuel p.2
      else findUpperVarsGo fuel (c :: t2))
  | fuel+1, _ :: t => findUpperVarsGo fuel t

/-- re.findall(r'\$([A-Z_][A-Z0-9_]*)', line). -/
def findUpperVars (cs : List Char) : List String := findUpperVarsGo cs.length cs

/-- CodeIssue dataclass of code_smell_detector.py. -/
structure CodeIssue where
  type : String
  severity : String
  message : String
  line_number : Nat
  line_content : String
  suggestion : String
  code_snippet : List String
deriving DecidableEq, Repr

/-- The superglobal exclusion list of _find_naming_issues. -/
def superglobalList : List String :=
  ["GLOBALS", "POST", "GET", "SESSION", "COOKIE", "SERVER", "FILES", "ENV"]

/-- Issues contributed by one line in CodeSmellDetector._find_naming_issues. -/
def naming_issues_at (i : Nat) (line : String) : List CodeIssue :=
  let stripped := pyStrip line
  let classIssues :=
    match classNameSearch stripped with
    | some class_name =>
      if !(isPascalName class_name) then
        [{ type := "naming_violation", severity := "info",
           message := "类名违反PSR-1规范: \x27" ++ class_name ++ "\x27",
           line_number := i + 1, line_content := stripped,
           suggestion := "类名应使用PascalCase命名:\n修改前: class " ++ class_name ++
             "\n修改后: class " ++ to_pascal_case class_name,
           code_snippet := [stripped] }]
      else []
    | none => []
  let methodIssues :=
    match funcNameSearch stripped with
    | some method_name =>
      if !(List.isPrefixOf "__".data method_name.data) && !(isCamelName method_name) then
        [{ type := "naming_violation", severity := "info",
           message := "方法名违反PSR-1规范: \x27" ++ method_name ++ "\x27",
           line_number := i + 1, line_content := stripped,
           suggestion := "方法名应使用camelCase命名:\n修改前: function " ++ method_name ++
             "(...)\n修改后: function " ++ to_camel_case method_name ++ "(...)",
           code_snippet := [stripped] }]
      else []
    | none => []
  let varIssues :=
    (findUpperVars line.data).filterMap (fun var_name =>
      if !(superglobalList.contains var_name) then
        some { type := "naming_violation", severity := "info",
               message := "变量名违反约定: \x27\\$" ++ var_name ++ "\x27",
               line_number := i + 1, line_content := stripped,
               suggestion := "变量名应使用camelCase:\n修改前: \\$" ++ var_name ++
                 "\n修改后: \\$" ++ to_camel_case var_name,
               code_snippet := [stripped] }
      else none)
  classIssues ++ methodIssues ++ varIssues

/-- CodeSmellDetector._find_naming_issues. -/
def find_naming_issues (lines : List String) : List CodeIssue :=
  (lines.enum.map (fun p => naming_issues_at p.1 p.2)).flatten

/-- One-character string holding an opening brace. -/
def strOpen : String := ⟨[chOpen]⟩

/-- One-character string holding a closing brace. -/
def strClose : String := ⟨[chClose]⟩

/-- Match one of the SQL verbs SELECT, INSERT, UPDATE, DELETE
(re.IGNORECASE) at the head, returning the rest. -/
def sqlVerbAt (cs : List Char) : Option (List Char) :=
  match litCIAt "select".data cs with
  | some r => some r
  | none =>
    match litCIAt "insert".data cs with
    | some r => some r
    | none =>
      match litCIAt "update".data cs with
      | some r => some r
      | none => litCIAt "delete".data cs

/-- Tail test of sql pattern 1: `.*\$\w+` (a dollar followed by a word
character occurs somewhere). -/
def hasDollarWord : List Char → Bool
  | '$' :: c :: t => isWordCh c || hasDollarWord (c :: t)
  | _ :: t => hasDollarWord t
  | [] => false

/-- Tail test of sql pattern 2: `.*\.\s*\$`. -/
def hasDotWsDollar : List Char → Bool
  | '.' :: t => (match t.dropWhile pyIsWs with | '$' :: _ => true | _ => false) || hasDotWsDollar t
  | _ :: t => hasDotWsDollar t
  | [] => false

/-- Drop up to and including the first occurrence of a character. -/
def afterFirst (c : Char) : List Char → Option (List Char)
  | [] => none
  | d :: t => if d = c then some t else afterFirst c t

/-- Tail test of sql patterns 3 and 4: `.*q.*\$.*q` for a quote
character q (a quote, then a dollar, then another quote, in order). -/
def hasQuoteDollarQuote (q : Char) (cs : List Char) : Bool :=
  match afterFirst q cs with
  | none => false
  | some r1 =>
    match afterFirst '$' r1 with
    | none => false
    | some r2 => r2.contains q

/-- The disjunction of the four sql_patterns of
_find_sql_injection_risks, each searched with re.IGNORECASE.  All four
share the prefix `(SELECT|INSERT|UPDATE|DELETE)`; a pattern matches
somewhere in the line iff its tail test holds after the leftmost verb
occurrence (the leftmost verb suffix contains every later one). -/
def sql_pattern_hit (s : String) : Bool :=
  match searchL sqlVerbAt s.data with
  | none => false
  | some rest =>
    hasDollarWord rest || hasDotWsDollar rest ||
    hasQuoteDollarQuote chDq rest || hasQuoteDollarQuote chSq rest

/-- The exclusion regex `(prepare|PDO::PARAM|bindParam|bindValue|\?)`
(re.IGNORECASE) of _find_sql_injection_risks. -/
def sql_bind_hit (s : String) : Bool :=
  strInCI "prepare" s || strInCI "pdo::param" s || strInCI "bindparam" s ||
  strInCI "bindvalue" s || s.data.contains '?'

/-- Issues contributed by one line in
CodeSmellDetector._find_sql_injection_risks.  In the source, the four
patterns are tried in order with a break after the first appended issue;
since the appended issue does not depend on which pattern matched, and
the exclusion test is identical each time, the loop is equivalent to a
single test of the disjunction. -/
def sql_issues_at (lines : List String) (i : Nat) (line : String) : List CodeIssue :=
  let stripped := pyStrip line
  if sql_pattern_hit stripped && !(sql_bind_hit stripped) then
    let ctxStart := i - 2
    let ctxEnd := min lines.length (i + 3)
    [{ type := "sql_injection_risk", severity := "error",
       message := "第" ++ toString (i+1) ++ "行发现SQL注入风险: 直接拼接变量到SQL语句",
       line_number := i + 1, line_content := stripped,
       suggestion := "修复建议:\n1. 使用PDO预处理语句: $stmt = $pdo->prepare(\x27SELECT * FROM users WHERE id = ?\x27);\n2. 绑定参数: $stmt->execute([$userId]);\n3. 或使用命名参数: WHERE id = :id",
       code_snippet := ((lines.drop ctxStart).take (ctxEnd - ctxStart)).map pyRstrip }]
  else []

/-- CodeSmellDetector._find_sql_injection_risks. -/
def find_sql_injection_risks (lines : List String) : List CodeIssue :=
  (lines.enum.map (fun p => sql_issues_at lines p.1 p.2)).flatten

/-- The brace-matching loop of _find_long_methods: starting at line
index i, accumulate a running count of opening minus closing braces per
line; once it has been positive and returns to zero, that line index is
the method end.  Returns none when the loop runs off the end. -/
def braceGo : List String → Nat → Int → Bool → Option Nat
  | [], _, _, _ => none
  | l :: rest, j, bc, found =>
    let bc2 := bc + (chCount chOpen l : Int) - (chCount chClose l : Int)
    let found2 := if bc2 > 0 then true else found
    if found2 && bc2 == 0 then some j else braceGo rest (j+1) bc2 found2

/-- Method-end line index per the scan of _find_long_methods (defaults
to the start line when no balanced point is found). -/
def methodEndScan (lines : List String) (i : Nat) : Nat :=
  (braceGo (lines.drop i) i 0 false).getD i

/-- Cross-line parameter collection of _find_long_methods: append
stripped following lines until one contains a closing parenthesis. -/
def collectCross (acc : String) : List String → String
  | [] => acc
  | l :: rest =>
    let acc2 := acc ++ " " ++ pyStrip l
    if strIn ")" l then acc2 else collectCross acc2 rest

/-- re.sub(r'\).*$', '', s): cut from the first closing parenthesis. -/
def cutRparenL : List Char → List Char
  | [] => []
  | c :: t => if c = ')' then [] else c :: cutRparenL t

/-- re.sub(r'\s*=.*$', '', s): cut from the first equals sign together
with the whitespace run directly before it. -/
def cutDefaultL : List Char → List Char
  | [] => []
  | c :: t =>
    if c = '=' then []
    else if pyIsWs c && (match t.dropWhile pyIsWs with | '=' :: _ => true | _ => false) then []
    else c :: cutDefaultL t

/-- re.sub(r'^\s*\$?', '$', s): normalise a parameter to start with a
dollar sign. -/
def ensureDollar (s : String) : String :=
  let r := s.data.dropWhile pyIsWs
  let r2 := match r with | '$' :: t => t | _ => r
  ⟨'$' :: r2⟩

/-- Issues contributed by one line in CodeSmellDetector._find_long_methods
(the pass also emits long_parameter_list issues at threshold greater
than 4). -/
def long_method_issues_at (lines : List String) (i : Nat) (line : String) : List CodeIssue :=
  let stripped := pyStrip line
  match funcSigSearchStrict stripped with
  | none => []
  | some (method_name, params_str) =>
    let method_end := methodEndScan lines i
    let method_length := method_end - i + 1
    let method_signature :=
      if !(strIn ")" stripped) && i + 1 < lines.length then
        stripped ++ " " ++ pyStrip (lines.getD (i+1) "")
      else stripped
    let lm :=
      if 20 < method_length then
        [{ type := "long_method", severity := "warning",
           message := "长方法 \x27" ++ method_name ++ "\x27 (" ++ toString method_length ++
             " 行，第" ++ toString (i+1) ++ "-" ++ toString (method_end+1) ++ "行)",
           line_number := i + 1, line_content := method_signature,
           suggestion := "将 \x27" ++ method_name ++ "\x27 方法分解为多个较小的方法。建议:\n1. 提取验证逻辑为独立方法\n2. 提取数据处理逻辑\n3. 提取通知发送逻辑\n4. 每个方法应少于30行",
           code_snippet := ((lines.drop i).take (min (i+10) lines.length - i)).map pyRstrip }]
      else []
    let lpl :=
      if pyStrip params_str ≠ "" then
        let full_params :=
          if !(strIn ")" line) && i + 1 < lines.length then
            collectCross params_str ((lines.drop (i+1)).take (min (i+10) lines.length - (i+1)))
          else params_str
        let param_list := splitParams ⟨cutRparenL full_params.data⟩
        if 4 < param_list.length then
          let param_names := param_list.map (fun p =>
            (⟨cutDefaultL (ensureDollar (pyStrip p)).data⟩ : String))
          [{ type := "long_parameter_list", severity := "warning",
             message := "方法 \x27" ++ method_name ++ "\x27 参数过多 (" ++
               toString param_list.length ++ " 个参数)",
             line_number := i + 1, line_content := method_signature,
             suggestion := "重构 \x27" ++ method_name ++ "\x27 的参数列表:\n1. 创建配置对象: UserData, ValidationConfig, EmailConfig等\n2. 使用数组或对象传递相关参数\n3. 考虑方法是否职责过多\n\n当前参数:\n" ++
               String.intercalate "\n" (param_names.map (fun p => "  - " ++ p)),
             code_snippet := [method_signature] }]
        else []
      else []
    lm ++ lpl

/-- CodeSmellDetector._find_long_methods. -/
def find_long_methods (lines : List String) : List CodeIssue :=
  (lines.enum.map (fun p => long_method_issues_at lines p.1 p.2)).flatten

/-- Issues contributed by one line in
CodeSmellDetector._find_long_parameter_lists (threshold greater than 5;
the regex runs on the raw line). -/
def long_param_list_issues_at (i : Nat) (line : String) : List CodeIssue :=
  match funcSigSearch line with
  | none => []
  | some (method_name, params_str) =>
    if pyStrip params_str ≠ "" then
      let params := splitParams params_str
      if 5 < params.length then
        [{ type := "long_parameter_list", severity := "warning",
           message := "方法 \x27" ++ method_name ++ "\x27 参数过多 (" ++
             toString params.length ++ " 个参数)",
           line_number := i + 1, line_content := pyStrip line,
           suggestion := "使用参数对象重构 " ++ method_name ++ "，或考虑是否违反了单一职责原则",
           code_snippet := [pyStrip line] }]
      else []
    else []

/-- CodeSmellDetector._find_long_parameter_lists. -/
def find_long_parameter_lists (lines : List String) : List CodeIssue :=
  (lines.enum.map (fun p => long_param_list_issues_at p.1 p.2)).flatten

/-- Word-boundary keyword test at one position for
`\b(if|for|foreach|while|switch)\b` (re.IGNORECASE): the previous
character (if any) is not a word character, some alternative matches
here, and the character following it (if any) is not a word character. -/
def ctrlKwAt (prev : Option Char) (cs : List Char) : Bool :=
  let bOK := match prev with | none => true | some d => !(isWordCh d)
  let kwHit := fun (kw : String) =>
    match litCIAt kw.data cs with
    | some rest => (match rest with | [] => true | d :: _ => !(isWordCh d))
    | none => false
  bOK && (kwHit "if" || kwHit "for" || kwHit "foreach" || kwHit "while" || kwHit "switch")

/-- Scan driver for ctrlKwAt carrying the previous character. -/
def hasControlKwGo : Option Char → List Char → Bool
  | _, [] => false
  | prev, c :: t => ctrlKwAt prev (c :: t) || hasControlKwGo (some c) t

/-- re.search of `\b(if|for|foreach|while|switch)\b` (re.IGNORECASE). -/
def hasControlKw (s : String) : Bool := hasControlKwGo none s.data

/-- Python stripped.startswith(closing brace). -/
def startsWithCloseBrace (s : String) : Bool :=
  match s.data with
  | c :: _ => c = chClose
  | _ => false

/-- The line loop of CodeSmellDetector._find_complex_methods, carried
state: in_method, method_start, method_name, max_nesting,
current_nesting. -/
def complexGo (lines : List String) : List (Nat × String) → Bool → Nat → String → Nat → Nat → List CodeIssue
  | [], _, _, _, _, _ => []
  | (i, line) :: rest, in_method, method_start, method_name, max_nesting, current_nesting =>
    let stripped := pyStrip line
    let st :=
      match funcOpenSearch stripped with
      | some nm =>
        if in_method then (in_method, method_start, method_name, max_nesting, current_nesting)
        else (true, i, nm, 0, 0)
      | none => (in_method, method_start, method_name, max_nesting, current_nesting)
    match st with
    | (inM, mStart, mName, maxN, curN) =>
      if inM then
        let curN2 := if hasControlKw stripped then curN + 1 else curN
        let maxN2 := if hasControlKw stripped then max maxN curN2 else maxN
        let curN3 := if startsWithCloseBrace stripped then curN2 - 1 else curN2
        if startsWithCloseBrace stripped && curN3 == 0 then
          (if 4 < maxN2 then
            [{ type := "complex_method", severity := "error",
               message := "方法 \x27" ++ mName ++ "\x27 嵌套过深 (最大嵌套层次: " ++
                 toString maxN2 ++ ")",
               line_number := mStart + 1,
               line_content := pyStrip (lines.getD mStart ""),
               suggestion := "简化 " ++ mName ++ " 方法：使用早期返回减少嵌套，将复杂逻辑提取为独立方法",
               code_snippet := ((lines.drop mStart).take (min (mStart+10) lines.length - mStart)).map pyRstrip }]
           else []) ++ complexGo lines rest false mStart mName maxN2 curN3
        else
          complexGo lines rest inM mStart mName maxN2 curN3
      else
        complexGo lines rest inM mStart mName maxN curN

/-- CodeSmellDetector._find_complex_methods. -/
def find_complex_methods (lines : List String) : List CodeIssue :=
  complexGo lines lines.enum false 0 "" 0 0

/-- re.search of `while\s*\(\s*(true|1|TRUE)\s*\)` (case-sensitive). -/
def whileTrueHit (s : String) : Bool :=
  existsPos (fun cs =>
    match litAt "while".data cs with
    | none => false
    | some r1 =>
      match wsStar r1 with
      | '(' :: r2 =>
        let r4opt :=
          match litAt "true".data (wsStar r2) with
          | some r => some r
          | none =>
            match litAt "TRUE".data (wsStar r2) with
            | some r => some r
            | none => match wsStar r2 with | '1' :: r => some r | _ => none
        match r4opt with
        | some r4 => (match wsStar r4 with | ')' :: _ => true | _ => false)
        | none => false
      | _ => false) s.data

/-- re.search of `while\s*\([^)]*\)`. -/
def whileParenHit (s : String) : Bool :=
  existsPos (fun cs =>
    match litAt "while".data cs with
    | none => false
    | some r1 =>
      match wsStar r1 with
      | '(' :: r2 => (match (r2.span (fun d => d ≠ ')')).2 with | ')' :: _ => true | _ => false)
      | _ => false) s.data

/-- re.search of `for\s*\(\s*[^;]*;\s*[^;]*;\s*[^)]*\)`: a for head with
two semicolons and a closing parenthesis. -/
def forOuterHit (s : String) : Bool :=
  existsPos (fun cs =>
    match litAt "for".data cs with
    | none => false
    | some r1 =>
      match wsStar r1 with
      | '(' :: r2 =>
        match (r2.span (fun d => d ≠ ';')).2 with
        | ';' :: r3 =>
          match (r3.span (fun d => d ≠ ';')).2 with
          | ';' :: r4 => (match (r4.span (fun d => d ≠ ')')).2 with | ')' :: _ => true | _ => false)
          | _ => false
        | _ => false
      | _ => false) s.data

/-- The tail `\s*\d+\s*;\s*\)` of the inner for pattern. -/
def forInnerTail (r : List Char) : Bool :=
  match digitPlus (wsStar r) with
  | none => false
  | some r2 =>
    match wsStar r2 with
    | ';' :: r3 => (match wsStar r3 with | ')' :: _ => true | _ => false)
    | _ => false

/-- re.search of
`for\s*\(\s*\$\w+\s*=\s*\d+\s*;\s*\$\w+\s*[<>]=?\s*\d+\s*;\s*\)`:
a for head whose increment clause is empty.  The optional `=?` is
resolved by trying the greedy branch first, as Python does. -/
def forInnerHit (s : String) : Bool :=
  existsPos (fun cs =>
    match litAt "for".data cs with
    | none => false
    | some r1 =>
      match wsStar r1 with
      | '(' :: r2 =>
        match wsStar r2 with
        | '$' :: r3 =>
          match wordPlus r3 with
          | none => false
          | some (_, r4) =>
            match wsStar r4 with
            | '=' :: r5 =>
              match digitPlus (wsStar r5) with
              | none => false
              | some r6 =>
                match wsStar r6 with
                | ';' :: r7 =>
                  match wsStar r7 with
                  | '$' :: r8 =>
                    match wordPlus r8 with
                    | none => false
                    | some (_, r9) =>
                      match wsStar r9 with
                      | c :: r10 =>
                        if c = '<' || c = '>' then
                          match r10 with
                          | '=' :: r11 => forInnerTail r11 || forInnerTail r10
                          | _ => forInnerTail r10
                        else false
                      | [] => false
                  | _ => false
                | _ => false
            | _ => false
        | _ => false
      | _ => false) s.data

/-- re.search of `catch\s*\([^)]*\)\s*\{?\s*\}?`: the trailing optional
parts always match, so this reduces to a catch head with a closed
parenthesis. -/
def catchParenHit (s : String) : Bool :=
  existsPos (fun cs =>
    match litAt "catch".data cs with
    | none => false
    | some r1 =>
      match wsStar r1 with
      | '(' :: r2 => (match (r2.span (fun d => d ≠ ')')).2 with | ')' :: _ => true | _ => false)
      | _ => false) s.data

/-- re.search of `/\s*\$\w+`. -/
def divVarHit (s : String) : Bool :=
  existsPos (fun cs =>
    match cs with
    | '/' :: r1 =>
      (match wsStar r1 with
       | '$' :: c :: _ => isWordCh c
       | _ => false)
    | _ => false) s.data

/-- re.search of `\$\w+\[\$\w+\]`. -/
def arrIdxHit (s : String) : Bool :=
  existsPos (fun cs =>
    match cs with
    | '$' :: r1 =>
      match wordPlus r1 with
      | some (_, '[' :: '$' :: r3) =>
        (match wordPlus r3 with
         | some (_, ']' :: _) => true
         | _ => false)
      | _ => false
    | _ => false) s.data

/-- re.search of `(fopen|file_get_contents|include|require)\(`. -/
def fileOpHit (s : String) : Bool :=
  strIn "fopen(" s || strIn "file_get_contents(" s || strIn "include(" s || strIn "require(" s

/-- re.search of `(file_exists|is_readable|@)`. -/
def fileGuardHit (s : String) : Bool :=
  strIn "file_exists" s || strIn "is_readable" s || s.data.contains '@'

/-- re.search of `(if|return|break|\$\w+\s*[<>]=?)`: the termination
heuristic of the recursion check (the `=?` is optional, so only the
comparison head matters). -/
def terminationHit (s : String) : Bool :=
  strIn "if" s || strIn "return" s || strIn "break" s ||
  existsPos (fun cs =>
    match cs with
    | '$' :: r1 =>
      match wordPlus r1 with
      | some (_, r2) => (match wsStar r2 with | c :: _ => c = '<' || c = '>' | [] => false)
      | none => false
    | _ => false) s.data

/-- re.search of `(->query\(|->prepare\(|mysql_|mysqli_)`. -/
def queryCallHit (s : String) : Bool :=
  strIn "->query(" s || strIn "->prepare(" s || strIn "mysql_" s || strIn "mysqli_" s

/-- re.search of `\$\w+\s*\.=`. -/
def strConcatHit (s : String) : Bool :=
  existsPos (fun cs =>
    match cs with
    | '$' :: r1 =>
      match wordPlus r1 with
      | some (_, r2) => (match wsStar r2 with | '.' :: '=' :: _ => true | _ => false)
      | none => false
    | _ => false) s.data

/-- re.search of `preg_(match|replace)\(`. -/
def pregHit (s : String) : Bool := strIn "preg_match(" s || strIn "preg_replace(" s

/-- re.search of `count\(\$\w+\)`. -/
def countCallHit (s : String) : Bool :=
  existsPos (fun cs =>
    match litAt "count(".data cs with
    | some ('$' :: r1) =>
      (match wordPlus r1 with
       | some (_, ')' :: _) => true
       | _ => false)
    | _ => false) s.data

/-- re.search of `(for|while|foreach)\s*\(` (case-sensitive), the loop
head test of _find_performance_issues. -/
def loopHeadHit (s : String) : Bool :=
  existsPos (fun cs =>
    let tryKw := fun (kw : String) =>
      match litAt kw.data cs with
      | some r => (match wsStar r with | '(' :: _ => true | _ => false)
      | none => false
    tryKw "for" || tryKw "while" || tryKw "foreach") s.data

/-- The lookahead loop of the while(true) check of _find_logic_errors:
walk up to 50 lines tracking braces, recording whether a line contains
break, return or exit; stop when the braces close. -/
def wtGo : List String → Int → Bool → Bool → Bool
  | [], _, _, hb => hb
  | l :: rest, bc, found, hb =>
    let ll := pyStrip l
    let delta := (chCount chOpen ll : Int) - (chCount chClose ll : Int)
    let pr : Int × Bool :=
      if strIn strOpen ll then (bc + delta, true)
      else if found then (bc + delta, found)
      else (bc, found)
    let hb2 := hb || strIn "break" ll || strIn "return" ll || strIn "exit" ll
    if pr.2 && pr.1 == 0 then hb2 else wtGo rest pr.1 pr.2 hb2

/-- The while(true) check's has_break over the 50-line window starting
at line i. -/
def while_true_has_break (lines : List String) (i : Nat) : Bool :=
  wtGo ((lines.drop i).take (min (i+50) lines.length - i)) 0 false false

/-- The lookahead loop of the recursion check of _find_logic_errors:
walk up to 100 lines tracking braces, recording a self call (only once
the opening brace has been seen) and the termination heuristic. -/
def rsGo : List String → String → Int → Bool → Bool → Bool → Bool × Bool
  | [], _, _, _, sc, tm => (sc, tm)
  | l :: rest, nm, bc, found, sc, tm =>
    let fl := pyStrip l
    let delta := (chCount chOpen fl : Int) - (chCount chClose fl : Int)
    let pr : Int × Bool :=
      if strIn strOpen fl then (bc + delta, true)
      else if found then (bc + delta, found)
      else (bc, found)
    let sc2 := sc || (pr.2 && strIn (nm ++ "(") fl)
    let tm2 := tm || terminationHit fl
    if pr.2 && pr.1 == 0 then (sc2, tm2) else rsGo rest nm pr.1 pr.2 sc2 tm2

/-- The recursion check's (has_self_call, has_termination) over the
100-line window starting at line i. -/
def recursion_flags (lines : List String) (i : Nat) (nm : String) : Bool × Bool :=
  rsGo ((lines.drop i).take (min (i+100) lines.length - i)) nm 0 false false false

/-- First line of an enumerated window satisfying a predicate, with its
index (the break-on-first-match loops of the detectors). -/
def firstHit : List (Nat × String) → (String → Bool) → Option (Nat × String)
  | [], _ => none
  | (j, l) :: rest, p => if p l then some (j, l) else firstHit rest p

/-- Enumerated window lines[a : min(b, len(lines))]. -/
def lineWindow (lines : List String) (a b : Nat) : List (Nat × String) :=
  (lines.enum.drop a).take (min b lines.length - a)

/-- Issues contributed by one line in CodeSmellDetector._find_logic_errors:
the eight checks in source order (infinite while, malformed for,
unbounded recursion, empty catch, loop-local allocation, division by
zero, array bounds, unchecked file operation). -/
def logic_issues_at (lines : List String) (i : Nat) (line : String) : List CodeIssue :=
  let stripped := pyStrip line
  let c1 :=
    if whileTrueHit stripped then
      if !(while_true_has_break lines i) then
        [{ type := "infinite_loop_risk", severity := "error",
           message := "第" ++ toString (i+1) ++ "行发现潜在的死循环: while(true)无exit条件",
           line_number := i + 1, line_content := stripped,
           suggestion := "修复建议:\n1. 添加break或return语句\n2. 使用有条件的循环: while($condition)\n3. 添加计数器防止无限循环\n4. 使用for循环替代",
           code_snippet := [stripped] }]
      else []
    else []
  let c2 :=
    if forOuterHit stripped then
      if forInnerHit stripped then
        [{ type := "infinite_loop_risk", severity := "error",
           message := "第" ++ toString (i+1) ++ "行for循环缺少递增/递减语句",
           line_number := i + 1, line_content := stripped,
           suggestion := "修复建议:\n1. 添加$i++或$i--\n2. 确保循环变量会改变\n3. 检查循环终止条件",
           code_snippet := [stripped] }]
      else []
    else []
  let c3 :=
    match funcNameSearchCS stripped with
    | some function_name =>
      let fl := recursion_flags lines i function_name
      if fl.1 && !fl.2 then
        [{ type := "infinite_recursion_risk", severity := "error",
           message := "第" ++ toString (i+1) ++ "行函数\x27" ++ function_name ++ "\x27可能存在无限递归",
           line_number := i + 1, line_content := stripped,
           suggestion := "修复建议:\n1. 添加递归终止条件\n2. 确保参数在递归中会改变\n3. 添加递归深度限制\n4. 考虑使用迭代替代递归",
           code_snippet := [stripped] }]
      else []
    | none => []
  let c4 :=
    if catchParenHit stripped then
      if i + 1 < lines.length && pyStrip (lines.getD (i+1) "") == strClose then
        [{ type := "empty_catch_block", severity := "error",
           message := "第" ++ toString (i+1) ++ "行空的catch块: 忽略异常是危险的",
           line_number := i + 1, line_content := stripped,
           suggestion := "修复建议:\n1. 记录错误日志\n2. 显示用户友好的错误信息\n3. 重新抛出异常\n4. 执行清理操作",
           code_snippet := [stripped] }]
      else []
    else []
  let c5 :=
    if whileParenHit stripped then
      match firstHit (lineWindow lines (i+1) (i+20))
          (fun l => strIn "new " l && !(strIn "unset" l)) with
      | some (j, lj) =>
        [{ type := "memory_leak_risk", severity := "warning",
           message := "第" ++ toString (j+1) ++ "行循环内创建对象可能导致内存泄漏",
           line_number := j + 1, line_content := pyStrip lj,
           suggestion := "修复建议:\n1. 在循环外创建对象\n2. 使用unset()释放大对象\n3. 避免在循环内创建不必要的对象\n4. 考虑使用对象池模式",
           code_snippet := [pyStrip lj] }]
      | none => []
    else []
  let c6 :=
    if divVarHit stripped && !(strIn "if" stripped) then
      [{ type := "division_by_zero_risk", severity := "warning",
         message := "第" ++ toString (i+1) ++ "行可能的除零错误",
         line_number := i + 1, line_content := stripped,
         suggestion := "修复建议:\n1. 在除法前检查除数不为零\n2. 使用条件语句: if($divisor != 0)\n3. 抛出适当的异常",
         code_snippet := [stripped] }]
    else []
  let c7 :=
    if arrIdxHit stripped && !(strIn "isset" stripped) && !(strIn "array_key_exists" stripped) then
      [{ type := "array_bounds_risk", severity := "warning",
         message := "第" ++ toString (i+1) ++ "行可能的数组越界访问",
         line_number := i + 1, line_content := stripped,
         suggestion := "修复建议:\n1. 使用isset()检查键是否存在\n2. 使用array_key_exists()检查\n3. 使用null合并运算符: $arr[$key] ?? $default",
         code_snippet := [stripped] }]
    else []
  let c8 :=
    if fileOpHit stripped && !(fileGuardHit stripped) then
      [{ type := "file_operation_risk", severity := "warning",
         message := "第" ++ toString (i+1) ++ "行文件操作缺少存在性检查",
         line_number := i + 1, line_content := stripped,
         suggestion := "修复建议:\n1. 使用file_exists()检查文件是否存在\n2. 使用is_readable()检查权限\n3. 使用try-catch处理文件异常\n4. 检查函数返回值",
         code_snippet := [stripped] }]
    else []
  c1 ++ c2 ++ c3 ++ c4 ++ c5 ++ c6 ++ c7 ++ c8

/-- CodeSmellDetector._find_logic_errors. -/
def find_logic_errors (lines : List String) : List CodeIssue :=
  (lines.enum.map (fun p => logic_issues_at lines p.1 p.2)).flatten

/-- Issues contributed by one line in
CodeSmellDetector._find_performance_issues: the five checks in source
order (query in loop, large file read, string concatenation in loop,
regex compiled in loop, redundant count in for condition). -/
def perf_issues_at (lines : List String) (i : Nat) (line : String) : List CodeIssue :=
  let stripped := pyStrip line
  let c1 :=
    if loopHeadHit stripped then
      match firstHit (lineWindow lines (i+1) (i+30)) (fun l => queryCallHit l) with
      | some (j, lj) =>
        [{ type := "query_in_loop", severity := "error",
           message := "第" ++ toString (j+1) ++ "行在循环内执行数据库查询 (N+1问题)",
           line_number := j + 1, line_content := pyStrip lj,
           suggestion := "修复建议:\n1. 将查询移到循环外\n2. 使用JOIN合并查询\n3. 使用IN子句批量查询\n4. 考虑使用ORM的eager loading",
           code_snippet := [pyStrip lj] }]
      | none => []
    else []
  let c2 :=
    if strIn "file_get_contents(" stripped then
      [{ type := "large_file_read_risk", severity := "warning",
         message := "第" ++ toString (i+1) ++ "行使用file_get_contents可能导致内存问题",
         line_number := i + 1, line_content := stripped,
         suggestion := "修复建议:\n1. 对大文件使用fopen/fread分块读取\n2. 使用SplFileObject逐行读取\n3. 设置内存限制检查\n4. 考虑流式处理",
         code_snippet := [stripped] }]
    else []
  let c3 :=
    if loopHeadHit stripped then
      match firstHit (lineWindow lines (i+1) (i+20)) (fun l => strConcatHit l) with
      | some (j, lj) =>
        [{ type := "string_concat_in_loop", severity := "warning",
           message := "第" ++ toString (j+1) ++ "行循环内字符串连接影响性能",
           line_number := j + 1, line_content := pyStrip lj,
           suggestion := "修复建议:\n1. 使用数组收集字符串，最后implode()\n2. 使用StringBuilder模式\n3. 预先估算字符串长度",
           code_snippet := [pyStrip lj] }]
      | none => []
    else []
  let c4 :=
    if loopHeadHit stripped then
      match firstHit (lineWindow lines (i+1) (i+20)) (fun l => pregHit l) with
      | some (j, lj) =>
        [{ type := "regex_compile_in_loop", severity := "info",
           message := "第" ++ toString (j+1) ++ "行循环内编译正则表达式",
           line_number := j + 1, line_content := pyStrip lj,
           suggestion := "性能优化:\n1. 将正则表达式移到循环外预编译\n2. 使用preg_match_all批量处理\n3. 考虑使用更快的字符串函数",
           code_snippet := [pyStrip lj] }]
      | none => []
    else []
  let c5 :=
    if countCallHit stripped && strIn "for" stripped then
      [{ type := "redundant_function_call", severity := "info",
         message := "第" ++ toString (i+1) ++ "行循环条件中调用count()影响性能",
         line_number := i + 1, line_content := stripped,
         suggestion := "性能优化:\n1. 将count()结果缓存到变量\n2. 使用foreach替代for循环\n3. 或改为: for($i = 0, $len = count($arr); $i < $len; $i++)",
         code_snippet := [stripped] }]
    else []
  c1 ++ c2 ++ c3 ++ c4 ++ c5

/-- CodeSmellDetector._find_performance_issues. -/
def find_performance_issues (lines : List String) : List CodeIssue :=
  (lines.enum.map (fun p => perf_issues_at lines p.1 p.2)).flatten

/-- Position matcher for `(public|private|protected)\s+function\s+(\w+)`
(re.IGNORECASE), group 2, as in _find_uncommented_methods. -/
def tryVisibilityFunc (cs : List Char) : Option (List Char) :=
  let afterVis : Option (List Char) :=
    match litCIAt "public".data cs with
    | some r => some r
    | none =>
      match litCIAt "private".data cs with
      | some r => some r
      | none => litCIAt "protected".data cs
  match afterVis with
  | none => none
  | some r1 =>
    match wsPlus r1 with
    | none => none
    | some r2 =>
      match litCIAt "function".data r2 with
      | none => none
      | some r3 =>
        match wsPlus r3 with
        | none => none
        | some r4 =>
          match wordPlus r4 with
          | some (nm, _) => some nm
          | none => none

/-- re.search of `(public|private|protected)\s+function\s+(\w+)`
(re.IGNORECASE). -/
def visibilityFuncSearch (s : String) : Option String :=
  match searchL tryVisibilityFunc s.data with
  | some nm => some ⟨nm⟩
  | none => none

/-- The comment test of _find_uncommented_methods on one preceding line:
`'//' in line or '/*' in line or '*' in line`. -/
def commentSubstrHit (s : String) : Bool :=
  strIn "//" s || strIn "/*" s || strIn "*" s

/-- Issues contributed by one line in
CodeSmellDetector._find_uncommented_methods. -/
def uncommented_issues_at (lines : List String) (i : Nat) (line : String) : List CodeIssue :=
  match visibilityFuncSearch line with
  | none => []
  | some method_name =>
    let window := (lines.drop (i - 3)).take (i - (i - 3))
    if !(window.any commentSubstrHit) then
      [{ type := "missing_documentation", severity := "info",
         message := "方法 \x27" ++ method_name ++ "\x27 缺少文档注释",
         line_number := i + 1, line_content := pyStrip line,
         suggestion := "为 " ++ method_name ++ " 方法添加PHPDoc注释，说明功能、参数和返回值",
         code_snippet := [pyStrip line] }]
    else []

/-- CodeSmellDetector._find_uncommented_methods. -/
def find_uncommented_methods (lines : List String) : List CodeIssue :=
  (lines.enum.map (fun p => uncommented_issues_at lines p.1 p.2)).flatten

/-- re.search of `\$_(GET|POST|REQUEST|COOKIE)\[` (case-sensitive). -/
def superglobalIndexHit (s : String) : Bool :=
  existsPos (fun cs =>
    match litAt "$_".data cs with
    | none => false
    | some r1 =>
      let afterKw : Option (List Char) :=
        match litAt "GET".data r1 with
        | some r => some r
        | none =>
          match litAt "POST".data r1 with
          | some r => some r
          | none =>
            match litAt "REQUEST".data r1 with
            | some r => some r
            | none => litAt "COOKIE".data r1
      match afterKw with
      | some ('[' :: _) => true
      | _ => false) s.data

/-- re.search of
`(filter_|htmlspecialchars|strip_tags|mysqli_real_escape_string)`. -/
def sanitizeHit (s : String) : Bool :=
  strIn "filter_" s || strIn "htmlspecialchars" s || strIn "strip_tags" s ||
  strIn "mysqli_real_escape_string" s

/-- Rest of the input after the first case-insensitive occurrence of a
needle (given lowercase). -/
def findSubCIAfter (needle : List Char) : List Char → Option (List Char)
  | [] => litCIAt needle []
  | c :: t =>
    match litCIAt needle (c :: t) with
    | some r => some r
    | none => findSubCIAfter needle t

/-- re.search of `\$.*password.*=.*\$.*password` (re.IGNORECASE): a
dollar, then password, then an equals sign, then a dollar, then
password, in order (earliest-occurrence chaining is equivalent to the
backtracking search). -/
def passwordAssignHit (s : String) : Bool :=
  match afterFirst '$' s.data with
  | none => false
  | some r1 =>
    match findSubCIAfter "password".data r1 with
    | none => false
    | some r2 =>
      match afterFirst '=' r2 with
      | none => false
      | some r3 =>
        match afterFirst '$' r3 with
        | none => false
        | some r4 => (findSubCIAfter "password".data r4).isSome

/-- re.search of `(password_hash|hash|crypt|bcrypt)` (re.IGNORECASE). -/
def hashHit (s : String) : Bool :=
  strInCI "password_hash" s || strInCI "hash" s || strInCI "crypt" s || strInCI "bcrypt" s

/-- A quoted numeric literal: one of the quote characters, digits, and a
quote character again (`['"][0-9]+['"]`). -/
def quotedNumberHit : List Char → Bool
  | [] => false
  | c :: t =>
    ((c = chDq || c = chSq) &&
      (match digitPlus t with
       | some (d :: _) => d = chDq || d = chSq
       | _ => false)) || quotedNumberHit t

/-- Rest of the input after the first case-sensitive occurrence of a
needle. -/
def afterLit (needle : List Char) : List Char → Option (List Char)
  | [] => litAt needle []
  | c :: t =>
    match litAt needle (c :: t) with
    | some r => some r
    | none => afterLit needle t

/-- re.search of `new\s+PDO\(.*localhost.*root.*['"][0-9]+['"]`
(case-sensitive; earliest-occurrence chaining of the dotted parts). -/
def hardcodedPdoHit (s : String) : Bool :=
  existsPos (fun cs =>
    match litAt "new".data cs with
    | none => false
    | some r1 =>
      match wsPlus r1 with
      | none => false
      | some r2 =>
        match litAt "PDO(".data r2 with
        | none => false
        | some r3 =>
          match afterLit "localhost".data r3 with
          | none => false
          | some r4 =>
            match afterLit "root".data r4 with
            | none => false
            | some r5 => quotedNumberHit r5) s.data

/-- re.search of `(->query\(|->exec\(|mail\()`. -/
def queryExecMailHit (s : String) : Bool :=
  strIn "->query(" s || strIn "->exec(" s || strIn "mail(" s

/-- re.search of `(try|catch|if.*false|error)` (re.IGNORECASE). -/
def errHandleHit (s : String) : Bool :=
  strInCI "try" s || strInCI "catch" s ||
  (match findSubCIAfter "if".data s.data with
   | some r => isSubL "false".data (r.map Char.toLower)
   | none => false) ||
  strInCI "error" s

/-- Issues contributed by one line in
CodeSmellDetector._find_security_issues: the four checks in source
order (xss via raw superglobal, plaintext password, hardcoded PDO
credentials, missing error handling after query/exec/mail). -/
def security_issues_at (lines : List String) (i : Nat) (line : String) : List CodeIssue :=
  let stripped := pyStrip line
  let c1 :=
    if superglobalIndexHit stripped then
      if !(sanitizeHit stripped) then
        [{ type := "xss_risk", severity := "error",
           message := "第" ++ toString (i+1) ++ "行XSS风险: 直接使用用户输入",
           line_number := i + 1, line_content := stripped,
           suggestion := "修复建议:\n1. 使用filter_input()验证输入\n2. 使用htmlspecialchars()防止XSS\n3. 验证数据类型和格式",
           code_snippet := [stripped] }]
      else []
    else []
  let c2 :=
    if passwordAssignHit stripped then
      if !(hashHit stripped) then
        [{ type := "password_security", severity := "error",
           message := "第" ++ toString (i+1) ++ "行密码安全: 密码可能以明文存储",
           line_number := i + 1, line_content := stripped,
           suggestion := "修复建议:\n1. 使用password_hash()加密密码\n2. 使用password_verify()验证密码\n3. 永远不要存储明文密码",
           code_snippet := [stripped] }]
      else []
    else []
  let c3 :=
    if hardcodedPdoHit stripped then
      [{ type := "hardcoded_credentials", severity := "warning",
         message := "第" ++ toString (i+1) ++ "行安全风险: 硬编码的数据库连接信息",
         line_number := i + 1, line_content := stripped,
         suggestion := "修复建议:\n1. 使用环境变量存储敏感信息\n2. 使用配置文件(不提交到版本控制)\n3. 使用依赖注入管理数据库连接",
         code_snippet := [stripped] }]
    else []
  let c4 :=
    if queryExecMailHit stripped then
      let window := (lines.drop i).take (min (i+3) lines.length - i)
      if !(window.any errHandleHit) then
        [{ type := "missing_error_handling", severity := "warning",
           message := "第" ++ toString (i+1) ++ "行缺少错误处理",
           line_number := i + 1, line_content := stripped,
           suggestion := "修复建议:\n1. 使用try-catch处理异常\n2. 检查函数返回值\n3. 记录错误日志\n4. 向用户显示友好的错误信息",
           code_snippet := [stripped] }]
      else []
    else []
  c1 ++ c2 ++ c3 ++ c4

/-- CodeSmellDetector._find_security_issues. -/
def find_security_issues (lines : List String) : List CodeIssue :=
  (lines.enum.map (fun p => security_issues_at lines p.1 p.2)).flatten

/-- re.search of `^class\s+\w+` (anchored at the string start). -/
def classHeadHit (s : String) : Bool :=
  match litAt "class".data s.data with
  | none => false
  | some r =>
    match wsPlus r with
    | some (c :: _) => isWordCh c
    | _ => false

/-- The comment regex `(/\*|\*|//)` of the missing-class-comment
check. -/
def commentMarkHit (s : String) : Bool :=
  strIn "/*" s || strIn "*" s || strIn "//" s

/-- re.search of `public\s+\$\w+`. -/
def publicPropHit (s : String) : Bool :=
  existsPos (fun cs =>
    match litAt "public".data cs with
    | none => false
    | some r1 =>
      match wsPlus r1 with
      | some ('$' :: c :: _) => isWordCh c
      | _ => false) s.data

/-- re.search of `function\s+\w+\([^)]*\$\w+[^)]*\)` (case-sensitive,
no space before the parenthesis): a declaration with at least one
dollar parameter. -/
def funcDollarParamHit (s : String) : Bool :=
  existsPos (fun cs =>
    match litAt "function".data cs with
    | none => false
    | some r1 =>
      match wsPlus r1 with
      | none => false
      | some r2 =>
        match wordPlus r2 with
        | some (_, '(' :: r4) =>
          let p := r4.span (fun d => d ≠ ')')
          (match p.2 with | ')' :: _ => true | _ => false) && hasDollarWord p.1
        | _ => false) s.data

/-- A word run followed by whitespace and a dollar: the `\w+\s+\$`
alternative of the type-declaration regex. -/
def wordWsDollarHit (s : String) : Bool :=
  existsPos (fun cs =>
    match cs with
    | c :: t =>
      isWordCh c &&
        (match wsPlus t with
         | some ('$' :: _) => true
         | _ => false)
    | [] => false) s.data

/-- re.search of `(int|string|bool|array|object|\w+\s+\$)`. -/
def typeDeclHit (s : String) : Bool :=
  strIn "int" s || strIn "string" s || strIn "bool" s || strIn "array" s ||
  strIn "object" s || wordWsDollarHit s

/-- re.search of `^\s*function\s+\w+` (anchored; case-sensitive). -/
def bareFunctionHeadHit (s : String) : Bool :=
  match litAt "function".data (wsStar s.data) with
  | none => false
  | some r =>
    match wsPlus r with
    | some (c :: _) => isWordCh c
    | _ => false

/-- re.search of `(public|private|protected)`. -/
def visibilityHit (s : String) : Bool :=
  strIn "public" s || strIn "private" s || strIn "protected" s

/-- re.search of `^\$\w+\s*=` (anchored). -/
def globalAssignHit (s : String) : Bool :=
  match s.data with
  | '$' :: t =>
    (match wordPlus t with
     | some (_, r) => (match wsStar r with | '=' :: _ => true | _ => false)
     | none => false)
  | _ => false

/-- Issues contributed by one line in
CodeSmellDetector._find_code_quality_issues: the five checks in source
order (missing class comment, public property, missing parameter type
declaration, missing access modifier, global variable). -/
def quality_issues_at (lines : List String) (i : Nat) (line : String) : List CodeIssue :=
  let stripped := pyStrip line
  let c1 :=
    if classHeadHit stripped then
      let window := (lines.drop (i - 3)).take (i - (i - 3))
      if !(window.any commentMarkHit) then
        [{ type := "missing_class_comment", severity := "info",
           message := "第" ++ toString (i+1) ++ "行缺少类注释",
           line_number := i + 1, line_content := stripped,
           suggestion := "添加类注释说明:\n1. 类的用途和职责\n2. 主要功能说明\n3. 使用示例\n4. @author, @since等标签",
           code_snippet := [stripped] }]
      else []
    else []
  let c2 :=
    if publicPropHit stripped then
      [{ type := "public_property", severity := "warning",
         message := "第" ++ toString (i+1) ++ "行违反封装原则: public属性",
         line_number := i + 1, line_content := stripped,
         suggestion := "修复建议:\n1. 将属性改为private或protected\n2. 提供getter/setter方法\n3. 使用readonly属性(PHP 8.1+)",
         code_snippet := [stripped] }]
    else []
  let c3 :=
    if funcDollarParamHit stripped then
      if !(typeDeclHit stripped) then
        [{ type := "missing_type_declaration", severity := "info",
           message := "第" ++ toString (i+1) ++ "行缺少参数类型声明",
           line_number := i + 1, line_content := stripped,
           suggestion := "添加类型声明:\n1. function getUserById(int $userId, bool $includeProfile = null)\n2. 使用返回类型: function getName(): string\n3. 使用nullable类型: ?string",
           code_snippet := [stripped] }]
      else []
    else []
  let c4 :=
    if bareFunctionHeadHit stripped && !(visibilityHit stripped) then
      [{ type := "missing_access_modifier", severity := "warning",
         message := "第" ++ toString (i+1) ++ "行缺少访问修饰符",
         line_number := i + 1, line_content := stripped,
         suggestion := "添加访问修饰符:\n1. public function - 公开方法\n2. private function - 私有方法\n3. protected function - 受保护方法",
         code_snippet := [stripped] }]
    else []
  let c5 :=
    if globalAssignHit stripped then
      [{ type := "global_variable", severity := "warning",
         message := "第" ++ toString (i+1) ++ "行使用全局变量",
         line_number := i + 1, line_content := stripped,
         suggestion := "避免全局变量:\n1. 使用类属性\n2. 使用依赖注入\n3. 使用配置类\n4. 使用单例模式(谨慎使用)",
         code_snippet := [stripped] }]
    else []
  c1 ++ c2 ++ c3 ++ c4 ++ c5

/-- CodeSmellDetector._find_code_quality_issues. -/
def find_code_quality_issues (lines : List String) : List CodeIssue :=
  (lines.enum.map (fun p => quality_issues_at lines p.1 p.2)).flatten

/-- CodeSmellDetector._detect_detailed_issues: the ten detector passes
over the same line list, concatenated in source order. -/
def detect_detailed_issues (lines : List String) : List CodeIssue :=
  find_long_methods lines ++ find_complex_methods lines ++
  find_long_parameter_lists lines ++ find_naming_issues lines ++
  find_uncommented_methods lines ++ find_sql_injection_risks lines ++
  find_security_issues lines ++ find_code_quality_issues lines ++
  find_logic_errors lines ++ find_performance_issues lines

/-- CodeSmellDetector._determine_critical_smell_type: map the types of
the error-severity issues to one label by substring tests, in source
order. -/
def determine_critical_smell_type (critical_issues : List CodeIssue) : String :=
  let issue_types := critical_issues.map (fun iss => iss.type)
  if issue_types.any (fun t => strIn "sql_injection" t || strIn "xss" t || strIn "security" t) then
    "security_issues"
  else if issue_types.any (fun t => strIn "infinite" t || strIn "loop" t) then
    "logic_errors"
  else if issue_types.any (fun t => strIn "empty_catch" t) then
    "error_handling_issues"
  else if issue_types.any (fun t => strIn "performance" t || strIn "query_in_loop" t) then
    "performance_issues"
  else "critical_issues"

/-- CodeSmellDetector._determine_warning_smell_type. -/
def determine_warning_smell_type (warning_issues : List CodeIssue) : String :=
  let issue_types := warning_issues.map (fun iss => iss.type)
  if issue_types.any (fun t => strIn "long_method" t) then "long_method"
  else if issue_types.any (fun t => strIn "long_parameter" t) then "long_parameter_list"
  else if issue_types.any (fun t => strIn "naming" t) then "naming_issues"
  else if issue_types.any (fun t => strIn "missing_comment" t) then "low_cohesion"
  else "code_quality_issues"

/-- The label/confidence decision of CodeSmellDetector.detect_smells
(lines 174-193 of code_smell_detector.py).  `prediction` stands for the
(label, confidence) pair that lines 183-187 would obtain, either from
the loaded ML model or from _predict_with_rules; the critical branch
never consults it, so the decision is modelled for an arbitrary
prediction.  Confidences are modelled as exact rationals. -/
def detect_smells_decision (detailed_issues : List CodeIssue) (prediction : String × ℚ) : String × ℚ :=
  let critical_issues := detailed_issues.filter (fun iss => iss.severity == "error")
  if critical_issues.isEmpty then
    let warning_issues := detailed_issues.filter (fun iss => iss.severity == "warning")
    if !warning_issues.isEmpty && prediction.1 == "clean" then
      (determine_warning_smell_type warning_issues, max ((3 : ℚ)/4) prediction.2)
    else prediction
  else
    (determine_critical_smell_type critical_issues, (19 : ℚ)/20)

/-- The suggestion entry of the smell_rules table of CodeSmellDetector,
looked up by issue type in _generate_suggestions. -/
def smell_rule_suggestion (t : String) : Option String :=
  if t == "long_method" then some "考虑将长方法分解为多个小方法"
  else if t == "large_class" then some "考虑将大类分解为多个小类"
  else if t == "long_parameter_list" then some "考虑使用参数对象或配置类"
  else if t == "complex_method" then some "简化方法逻辑，减少嵌套层次"
  else if t == "naming_issues" then some "遵循PSR-1/PSR-12命名规范"
  else if t == "low_comment_ratio" then some "添加必要的代码注释和文档"
  else none

/-- The general_suggestions table of _generate_suggestions, keyed by the
final smell label. -/
def general_suggestions (smell_type : String) : List String :=
  if smell_type == "long_method" then
    ["使用Extract Method重构技术分解长方法",
     "确保每个方法只做一件事（单一职责原则）",
     "考虑使用Template Method模式处理重复逻辑"]
  else if smell_type == "complex_method" then
    ["减少嵌套层次，使用早期返回",
     "将复杂条件提取为有意义的方法",
     "考虑使用策略模式替换复杂的条件逻辑"]
  else if smell_type == "long_parameter_list" then
    ["使用参数对象(Parameter Object)重构",
     "考虑使用Builder模式构造复杂对象",
     "检查是否违反了单一职责原则"]
  else if smell_type == "large_class" then
    ["使用Extract Class重构分解大类",
     "识别类的不同职责并分离",
     "考虑使用组合代替继承"]
  else if smell_type == "naming_issues" then
    ["遵循PSR-1和PSR-12编码规范",
     "使用有意义的名称描述变量和方法的用途",
     "保持命名风格的一致性"]
  else []

/-- An issue dict as consumed by _generate_suggestions (only the type
key is read there). -/
structure SpecificIssue where
  type : String
deriving DecidableEq, Repr

/-- The suggestion pool assembled by _generate_suggestions before its
final `list(set(...))[:5]` step: the fix hint of each issue type in
issue order, then the general refactoring tips for the final label. -/
def generate_suggestions_pool (issues : List SpecificIssue) (smell_type : String) : List String :=
  (issues.filterMap (fun iss => smell_rule_suggestion iss.type)) ++ general_suggestions smell_type

/-- The final step of _generate_suggestions is
`suggestions = list(set(suggestions))[:5]`.  A CPython set iterates
strings in an unspecified, hash-randomised order, so the result is
modelled relationally: an output is admissible iff it is the first five
entries of some ordering of the deduplicated pool. -/
def suggestions_admissible (issues : List SpecificIssue) (smell_type : String) (out : List String) : Prop :=
  ∃ p : List String, p.Perm (generate_suggestions_pool issues smell_type).dedup ∧ out = p.take 5

/-- First-occurrence-order deduplication: the order the specification
sentence asserts for the suggestion list. -/
def dedupFirstOcc (l : List String) : List String :=
  l.foldl (fun acc a => if acc.contains a then acc else acc ++ [a]) []

/-- A function entry of the dict produced by PHPParser._simple_parse. -/
structure PFunc where
  name : String
  parameters : Nat
  complexity : Nat
deriving DecidableEq, Repr

/-- A class entry of the dict produced by PHPParser._simple_parse (the
extends field of the Python dict is None or a name; Lean keyword
`extends` forces the field name extendsName). -/
structure PClass where
  name : String
  extendsName : Option String
  implementsNames : List String
  methods : List PFunc
  properties : Nat
deriving DecidableEq, Repr

/-- The dict returned by PHPParser.parse_file / _simple_parse. -/
structure ParseDict where
  classes : List PClass
  functions : List PFunc
  complexity : Nat
  lines : Nat
  tokens_count : Nat
  variables_ : List String
  includes : List String
deriving DecidableEq, Repr

/-- Position matcher for one match of the _simple_parse class pattern
`class\s+(\w+)(?:\s+extends\s+(\w+))?(?:\s+implements\s+([^\x7b]+))?`
(re.IGNORECASE), returning the class entry and the rest of the input
after the match. -/
def tryClassAt (cs : List Char) : Option (PClass × List Char) :=
  match litCIAt "class".data cs with
  | none => none
  | some r1 =>
    match wsPlus r1 with
    | none => none
    | some r2 =>
      match wordPlus r2 with
      | none => none
      | some (nm, r3) =>
        let extRes : Option (List Char × List Char) :=
          match wsPlus r3 with
          | none => none
          | some e1 =>
            match litCIAt "extends".data e1 with
            | none => none
            | some e2 =>
              match wsPlus e2 with
              | none => none
              | some e3 =>
                match wordPlus e3 with
                | none => none
                | some (en, e4) => some (en, e4)
        let r4 := match extRes with | some (_, e4) => e4 | none => r3
        let implRes : Option (List Char × List Char) :=
          match wsPlus r4 with
          | none => none
          | some m1 =>
            match litCIAt "implements".data m1 with
            | none => none
            | some m2 =>
              match wsPlus m2 with
              | none => none
              | some m3 =>
                let p := m3.span (fun d => d ≠ chOpen)
                if p.1.isEmpty then none else some (p.1, p.2)
        let rest := match implRes with | some (_, m4) => m4 | none => r4
        some ({ name := ⟨nm⟩,
                extendsName := (match extRes with
                  | some (en, _) => some (⟨en⟩ : String)
                  | none => none),
                implementsNames := (match implRes with
                  | some (grp, _) => (splitOn1 ',' grp).map (fun g => (⟨g⟩ : String))
                  | none => []),
                methods := [], properties := 0 }, rest)

/-- re.finditer driver for the class pattern: non-overlapping matches,
continuing after each match end; fuel bounds the scan by input length. -/
def classScan : Nat → List Char → List PClass
  | 0, _ => []
  | _, [] => []
  | fuel+1, c :: t =>
    match tryClassAt (c :: t) with
    | some (pc, rest) => pc :: classScan fuel rest
    | none => classScan fuel t

/-- Position matcher for one match of the _simple_parse function
pattern `function\s+(\w+)\s*\([^)]*\)` (re.IGNORECASE), returning name,
parameter text and the rest after the match. -/
def tryFuncFull (cs : List Char) : Option (String × String × List Char) :=
  match litCIAt "function".data cs with
  | none => none
  | some r1 =>
    match wsPlus r1 with
    | none => none
    | some r2 =>
      match wordPlus r2 with
      | none => none
      | some (nm, r3) =>
        match wsStar r3 with
        | '(' :: r5 =>
          let p := r5.span (fun d => d ≠ ')')
          match p.2 with
          | ')' :: rest => some (⟨nm⟩, ⟨p.1⟩, rest)
          | _ => none
        | _ => none

/-- re.finditer driver for the function pattern.  The parameter count of
_simple_parse is `matched_text.count(",") + 1` (the 1-part of the
Python conditional is always taken since every match contains both
parentheses); commas of the matched text occur only in the parameter
group. -/
def funcScan : Nat → List Char → List PFunc
  | 0, _ => []
  | _, [] => []
  | fuel+1, c :: t =>
    match tryFuncFull (c :: t) with
    | some (nm, ps, rest) =>
      { name := nm, parameters := ps.data.count ',' + 1, complexity := 1 } :: funcScan fuel rest
    | none => funcScan fuel t

/-- Count of word-boundary occurrences of a keyword (re.IGNORECASE),
carrying the previous character, for the complexity tally of
_simple_parse. -/
def countKwGo (kwl : List Char) : Option Char → List Char → Nat
  | _, [] => 0
  | prev, c :: t =>
    let hit := (match prev with | none => true | some d => !(isWordCh d)) &&
      (match litCIAt kwl (c :: t) with
       | some rest => (match rest with | [] => true | d :: _ => !(isWordCh d))
       | none => false)
    (if hit then 1 else 0) + countKwGo kwl (some c) t

/-- The complexity tally of _simple_parse: one plus the word-boundary
occurrence counts of the nine branching keywords. -/
def simple_parse_complexity (cs : List Char) : Nat :=
  1 + (["if", "elseif", "else", "while", "for", "foreach", "switch", "case", "catch"].map
    (fun kw => countKwGo kw.data none cs)).sum

/-- Fueled scanner of re.findall(r'\$\w+', content): full matches in
order (fuel is the input length; every step strictly consumes input). -/
def findDollarVarsGo : Nat → List Char → List String
  | 0, _ => []
  | _, [] => []
  | fuel+1, '$' :: t =>
    (match t with
    | [] => []
    | c :: t2 =>
      if isWordCh c then
        let p := t2.span isWordCh
        (⟨'$' :: c :: p.1⟩ : String) :: findDollarVarsGo fuel p.2
      else findDollarVarsGo fuel (c :: t2))
  | fuel+1, _ :: t => findDollarVarsGo fuel t

/-- re.findall(r'\$\w+', content). -/
def findDollarVars (cs : List Char) : List String := findDollarVarsGo cs.length cs

/-- Count of whitespace-separated tokens, i.e. len(content.split()). -/
def countTokensGo (inTok : Bool) : List Char → Nat
  | [] => 0
  | c :: t =>
    let isw := pyIsWs c
    (if !isw && !inTok then 1 else 0) + countTokensGo (!isw) t

/-- PHPParser._simple_parse applied to a file content string.  The
Python code builds variables with list(set(findall)), whose order is
the unspecified set iteration order; the embedding keeps the
first-occurrence order (no claim depends on that order). -/
def simple_parse (content : String) : ParseDict :=
  let cs := content.data
  { classes := classScan cs.length cs,
    functions := funcScan cs.length cs,
    complexity := simple_parse_complexity cs,
    lines := cs.count (Char.ofNat 10) + 1,
    tokens_count := countTokensGo false cs,
    variables_ := dedupFirstOcc (findDollarVars cs),
    includes := [] }

/-- The error raised by the parse pipeline: _simple_parse's open() on a
missing path raises FileNotFoundError (and the FileNotFoundError
handler of parse_file re-raises it by calling _simple_parse again). -/
inductive ParseErr where
  | fileNotFound : ParseErr
deriving DecidableEq, Repr

/-- Outcome of the external `php` subprocess run of PHPParser.parse_file:
the binary can be missing (subprocess raises FileNotFoundError), the
30-second budget can expire (subprocess.TimeoutExpired), or the process
exits with a return code and an output that json.loads either decodes
to a dict or fails on (JSONDecodeError is modelled as none; json.loads
is the Python standard library, treated as the external boundary). -/
inductive BackendOutcome where
  | unavailable : BackendOutcome
  | timeout : BackendOutcome
  | exited (stdoutParsed : Option ParseDict) (returncode : Int) : BackendOutcome
deriving DecidableEq

/-- The fallback entry: _simple_parse reads the file (FileNotFoundError
when the path is missing) and analyses the content. -/
def simple_parse_file (fs : String → Option String) (path : String) : Except ParseErr ParseDict :=
  match fs path with
  | none => Except.error ParseErr.fileNotFound
  | some content => Except.ok (simple_parse content)

/-- PHPParser.parse_file over a file-system map and a backend outcome:
a nonzero exit falls back to _simple_parse, as do TimeoutExpired,
CalledProcessError, JSONDecodeError and a missing php binary.  (When the
fallback raises FileNotFoundError inside the try block, the except
clause calls _simple_parse once more and the second raise propagates;
the net result is the same error, which is what this embedding
returns.) -/
def parse_file (fs : String → Option String) (backend : BackendOutcome) (path : String) :
    Except ParseErr ParseDict :=
  match backend with
  | BackendOutcome.exited parsed rc =>
    if rc ≠ 0 then simple_parse_file fs path
    else
      match parsed with
      | some d => Except.ok d
      | none => simple_parse_file fs path
  | _ => simple_parse_file fs path

/-- The while loop of FeatureExtractor._calculate_inheritance_depth for
one start class, with a fuel bound on the number of iterations: the
loop looks up the current extends name in the class list (first match),
steps to that class's extends name, and adds one when the parent is not
found locally.  none means the fuel was exhausted before the loop
exited. -/
def inherit_depth_loop (fuel : Nat) (classes : List PClass) : Option String → Nat → Option Nat
  | none, depth => some depth
  | some nm, depth =>
    match fuel with
    | 0 => none
    | f+1 =>
      match classes.find? (fun other => other.name == nm) with
      | some other => inherit_depth_loop f classes other.extendsName (depth + 1)
      | none => some (depth + 1)

/-- FeatureExtractor._calculate_inheritance_depth with a fuel bound on
every per-class while loop; none when any loop fails to exit within the
fuel. -/
def calculate_inheritance_depth (fuel : Nat) (classes : List PClass) : Option Nat :=
  classes.foldl (fun acc cls =>
    match acc with
    | none => none
    | some m =>
      match inherit_depth_loop fuel classes cls.extendsName 1 with
      | none => none
      | some d => some (max m d)) (some 0)

/-- Concrete line of the specification's SQL-injection test: variable
concatenated into a SQL statement, no binding marker. -/
def sqlDemoBad : String := "$query = \x22SELECT * FROM t WHERE id = \x22 . $id;"

/-- The same query rewritten with a placeholder and bindParam. -/
def sqlDemoSafe : String :=
  "$stmt = $pdo->prepare(\x22SELECT * FROM t WHERE id = ?\x22); $stmt->bindParam(1, $id);"

/-- Concrete catch head line of the empty-catch test. -/
def catchDemoLine : String := "catch (Exception $e) \x7b"

/-- A logging call line for the non-empty catch variant. -/
def loggingDemoLine : String := "    error_log($e->getMessage());"

/-- A one-line function declaration with five parameters. -/
def declFive : String := "function doWork($a, $b, $c, $d, $e) \x7b"

/-- A one-line function declaration with six parameters. -/
def declSix : String := "function doWork($a, $b, $c, $d, $e, $f) \x7b"

/-- A loop whose body performs a database query (the N+1 scenario). -/
def loopDemoLines : List String :=
  ["for ($i = 0; $i < 10; $i++) \x7b", "    $result = $db->query($sql);", strClose]

/-- One nested-if line of the nesting-depth scenario. -/
def nestedIfLine : String := "if ($x > 0) \x7b"

/-- The innermost body line of the nesting-depth scenario. -/
def echoDemoLine : String := "echo $x;"

/-- The declaration line of the nesting-depth scenario. -/
def declNested : String := "function processData() \x7b"

/-- A method consisting of n sequentially nested if blocks (and no early
return): the declaration, n if lines, one body line, and the matching
closing braces. -/
def mkNestedIfMethod (n : Nat) : List String :=
  declNested :: (List.replicate n nestedIfLine ++ (echoDemoLine :: List.replicate (n+1) strClose))

/-- The observable key of an Issue used by the nesting-depth theorem:
its type, severity and 1-based line number. -/
def issueKey (iss : CodeIssue) : String × String × Nat :=
  (iss.type, iss.severity, iss.line_number)

/-- Two parsed classes whose extends references form a cycle. -/
def cycleClasses : List PClass :=
  [{ name := "A", extendsName := some "B", implementsNames := [], methods := [], properties := 0 },
   { name := "B", extendsName := some "A", implementsNames := [], methods := [], properties := 0 }]

/-- A line reading a superglobal directly. -/
def superglobalDemoLine : String := "echo $_POST[\x22id\x22];"

/-- The issue list used by the suggestion-assembly theorems: one
long-method issue dict, as _detect_specific_issues would produce for a
file with a long method. -/
def c7DemoIssues : List SpecificIssue := [{ type := "long_method" }]

/-- Demo PHP content for the parse pipeline. -/
def demoPhpContent : String :=
  "<?php class UserService \x7b public function run($a) \x7b return $a; \x7d \x7d"

/-- Demo one-file file system: only demo.php exists. -/
def demoFs : String → Option String :=
  fun p => if p = "demo.php" then some demoPhpContent else none

/-- Membership in a conditional singleton forces equality. -/
theorem mem_ite_singleton {c : Prop} [Decidable c] {x iss : CodeIssue}
    (h : iss ∈ (if c then [x] else [])) : iss = x := by
  split at h
  · simpa using h
  · simp at h

/-- Membership in a flattened per-line detector output gives one line's
contribution. -/
theorem mem_flatten_enum_map {f : Nat × String → List CodeIssue} {lines : List String}
    {iss : CodeIssue} (h : iss ∈ (lines.enum.map f).flatten) :
    ∃ p ∈ lines.enum, iss ∈ f p := by
  obtain ⟨l, hl, hil⟩ := List.mem_flatten.mp h
  obtain ⟨p, hp, rfl⟩ := List.mem_map.mp hl
  exact ⟨p, hp, hil⟩

/-- Every issue of _find_long_methods is a long_method or a
long_parameter_list issue. -/
theorem find_long_methods_types {lines : List String} {iss : CodeIssue}
    (h : iss ∈ find_long_methods lines) :
    iss.type = "long_method" ∨ iss.type = "long_parameter_list" := by
  obtain ⟨p, _, h⟩ := mem_flatten_enum_map h
  simp only [long_method_issues_at] at h
  repeat' split at h
  all_goals try simp only [List.mem_append, List.mem_singleton, List.mem_cons,
    List.not_mem_nil, or_false, false_or] at h
  all_goals first
    | (obtain rfl | rfl := h <;> simp)
    | (obtain rfl := h; simp)
    | simp_all

/-- Every issue of _find_long_parameter_lists is a long_parameter_list
issue. -/
theorem find_long_parameter_lists_types {lines : List String} {iss : CodeIssue}
    (h : iss ∈ find_long_parameter_lists lines) : iss.type = "long_parameter_list" := by
  obtain ⟨p, _, h⟩ := mem_flatten_enum_map h
  simp only [long_param_list_issues_at] at h
  repeat' split at h
  all_goals try simp only [List.mem_append, List.mem_singleton, List.mem_cons,
    List.not_mem_nil, or_false, false_or] at h
  all_goals first
    | (obtain rfl | rfl := h <;> simp)
    | (obtain rfl := h; simp)
    | simp_all

/-- Every issue of _find_complex_methods is a complex_method issue. -/
theorem complexGo_types {lines : List String} :
    ∀ (rem : List (Nat × String)) (inM : Bool) (s : Nat) (nm : String) (m c : Nat)
      (iss : CodeIssue), iss ∈ complexGo lines rem inM s nm m c →
      iss.type = "complex_method" := by
  intro rem
  induction rem with
  | nil => intro inM s nm m c iss h; simp [complexGo] at h
  | cons p rest ih =>
    intro inM s nm m c iss h
    obtain ⟨i, line⟩ := p
    simp only [complexGo] at h
    repeat' split at h
    all_goals try simp only [List.mem_append, List.mem_singleton, List.mem_cons,
      List.not_mem_nil, or_false, false_or] at h
    all_goals try (rcases h with h | h)
    all_goals first
      | exact ih _ _ _ _ _ _ h
      | (obtain rfl := h; simp)
      | simp_all

/-- Type support of _find_complex_methods. -/
theorem find_complex_methods_types {lines : List String} {iss : CodeIssue}
    (h : iss ∈ find_complex_methods lines) : iss.type = "complex_method" :=
  complexGo_types _ _ _ _ _ _ _ h

/-- Every issue of _find_naming_issues is a naming_violation issue. -/
theorem find_naming_issues_types {lines : List String} {iss : CodeIssue}
    (h : iss ∈ find_naming_issues lines) : iss.type = "naming_violation" := by
  obtain ⟨p, _, h⟩ := mem_flatten_enum_map h
  simp only [naming_issues_at] at h
  rw [List.mem_append, List.mem_append] at h
  rcases h with (h | h) | h
  · repeat' split at h
    all_goals try simp only [List.mem_append, List.mem_singleton, List.mem_cons,
      List.not_mem_nil, or_false, false_or] at h
    all_goals first
      | (obtain rfl | rfl := h <;> simp)
      | (obtain rfl := h; simp)
      | simp_all
  · repeat' split at h
    all_goals try simp only [List.mem_append, List.mem_singleton, List.mem_cons,
      List.not_mem_nil, or_false, false_or] at h
    all_goals first
      | (obtain rfl | rfl := h <;> simp)
      | (obtain rfl := h; simp)
      | simp_all
  · obtain ⟨v, _, hv⟩ := List.mem_filterMap.mp h
    split at hv
    · injection hv with hv2
      rw [← hv2]
    · simp at hv

/-- Every issue of _find_uncommented_methods is a missing_documentation
issue. -/
theorem find_uncommented_methods_types {lines : List String} {iss : CodeIssue}
    (h : iss ∈ find_uncommented_methods lines) : iss.type = "missing_documentation" := by
  obtain ⟨p, _, h⟩ := mem_flatten_enum_map h
  simp only [uncommented_issues_at] at h
  repeat' split at h
  all_goals try simp only [List.mem_append, List.mem_singleton, List.mem_cons,
    List.not_mem_nil, or_false, false_or] at h
  all_goals first
    | (obtain rfl | rfl := h <;> simp)
    | (obtain rfl := h; simp)
    | simp_all

/-- Every issue of _find_sql_injection_risks is a sql_injection_risk
issue. -/
theorem find_sql_injection_risks_types {lines : List String} {iss : CodeIssue}
    (h : iss ∈ find_sql_injection_risks lines) : iss.type = "sql_injection_risk" := by
  obtain ⟨p, _, h⟩ := mem_flatten_enum_map h
  simp only [sql_issues_at] at h
  repeat' split at h
  all_goals try simp only [List.mem_append, List.mem_singleton, List.mem_cons,
    List.not_mem_nil, or_false, false_or] at h
  all_goals first
    | (obtain rfl := h; simp)
    | simp_all

/-- Every issue of _find_security_issues has one of its four types. -/
theorem find_security_issues_types {lines : List String} {iss : CodeIssue}
    (h : iss ∈ find_security_issues lines) :
    iss.type = "xss_risk" ∨ iss.type = "password_security" ∨
      iss.type = "hardcoded_credentials" ∨ iss.type = "missing_error_handling" := by
  obtain ⟨p, _, h⟩ := mem_flatten_enum_map h
  simp only [security_issues_at, List.mem_append] at h
  repeat' (rcases h with h | h)
  all_goals repeat' split at h
  all_goals try simp only [List.mem_singleton, List.mem_cons, List.not_mem_nil,
    or_false, false_or] at h
  all_goals first
    | (obtain rfl := h; simp)
    | simp_all

/-- Every issue of _find_code_quality_issues has one of its five types. -/
theorem find_code_quality_issues_types {lines : List String} {iss : CodeIssue}
    (h : iss ∈ find_code_quality_issues lines) :
    iss.type = "missing_class_comment" ∨ iss.type = "public_property" ∨
      iss.type = "missing_type_declaration" ∨ iss.type = "missing_access_modifier" ∨
      iss.type = "global_variable" := by
  obtain ⟨p, _, h⟩ := mem_flatten_enum_map h
  simp only [quality_issues_at, List.mem_append] at h
  repeat' (rcases h with h | h)
  all_goals repeat' split at h
  all_goals try simp only [List.mem_singleton, List.mem_cons, List.not_mem_nil,
    or_false, false_or] at h
  all_goals first
    | (obtain rfl := h; simp)
    | simp_all

/-- Every issue of _find_logic_errors has one of its seven types. -/
theorem find_logic_errors_types {lines : List String} {iss : CodeIssue}
    (h : iss ∈ find_logic_errors lines) :
    iss.type = "infinite_loop_risk" ∨ iss.type = "infinite_recursion_risk" ∨
      iss.type = "empty_catch_block" ∨ iss.type = "memory_leak_risk" ∨
      iss.type = "division_by_zero_risk" ∨ iss.type = "array_bounds_risk" ∨
      iss.type = "file_operation_risk" := by
  obtain ⟨p, _, h⟩ := mem_flatten_enum_map h
  simp only [logic_issues_at, List.mem_append] at h
  repeat' (rcases h with h | h)
  all_goals repeat' split at h
  all_goals try simp only [List.mem_singleton, List.mem_cons, List.not_mem_nil,
    or_false, false_or] at h
  all_goals first
    | (obtain rfl := h; simp)
    | simp_all

/-- Every issue of _find_performance_issues has one of its five types. -/
theorem find_performance_issues_types {lines : List String} {iss : CodeIssue}
    (h : iss ∈ find_performance_issues lines) :
    iss.type = "query_in_loop" ∨ iss.type = "large_file_read_risk" ∨
      iss.type = "string_concat_in_loop" ∨ iss.type = "regex_compile_in_loop" ∨
      iss.type = "redundant_function_call" := by
  obtain ⟨p, _, h⟩ := mem_flatten_enum_map h
  simp only [perf_issues_at, List.mem_append] at h
  repeat' (rcases h with h | h)
  all_goals repeat' split at h
  all_goals try simp only [List.mem_singleton, List.mem_cons, List.not_mem_nil,
    or_false, false_or] at h
  all_goals first
    | (obtain rfl := h; simp)
    | simp_all

/-- A character list whose strip is empty is all whitespace. -/
theorem pyIsWs_of_pyStripL_nil {cs : List Char} (h : pyStripL cs = []) :
    ∀ c ∈ cs, pyIsWs c = true := by
  intro c hc
  have h1 : (cs.dropWhile pyIsWs).reverse.dropWhile pyIsWs = [] := by
    have := congrArg List.reverse h
    simpa [pyStripL] using this
  have h2 : ∀ x ∈ cs.dropWhile pyIsWs, pyIsWs x = true := by
    intro x hx
    exact List.dropWhile_eq_nil_iff.mp h1 x (List.mem_reverse.mpr hx)
  rw [← List.takeWhile_append_dropWhile (p := pyIsWs) (l := cs)] at hc
  rcases List.mem_append.mp hc with hc | hc
  · exact List.mem_takeWhile_imp hc
  · exact h2 c hc

/-- Characters of a split piece come from the split input. -/
theorem splitOn1_mem_subset {sep : Char} :
    ∀ {cs g : List Char} {c : Char}, g ∈ splitOn1 sep cs → c ∈ g → c ∈ cs := by
  intro cs
  induction cs with
  | nil =>
    intro g c hg hc
    simp only [splitOn1, List.mem_singleton] at hg
    subst hg
    simp at hc
  | cons a t ih =>
    intro g c hg hc
    simp only [splitOn1] at hg
    split at hg
    · rcases List.mem_cons.mp hg with rfl | hg
      · simp at hc
      · exact List.mem_cons_of_mem _ (ih hg hc)
    · split at hg
      · rename_i heq
        rw [List.mem_singleton] at hg
        subst hg
        rcases List.mem_cons.mp hc with rfl | hc
        · exact List.mem_cons_self _ _
        · simp at hc
      · rename_i g0 gs heq
        rcases List.mem_cons.mp hg with rfl | hg
        · rcases List.mem_cons.mp hc with rfl | hc
          · exact List.mem_cons_self _ _
          · exact List.mem_cons_of_mem _ (ih (heq ▸ List.mem_cons_self g0 gs) hc)
        · exact List.mem_cons_of_mem _ (ih (heq ▸ List.mem_cons_of_mem g0 hg) hc)

/-- Stripping an all-whitespace piece gives the empty string. -/
theorem pyStrip_eq_empty_of_all_ws {g : List Char} (h : ∀ c ∈ g, pyIsWs c = true) :
    pyStrip ⟨g⟩ = "" := by
  have h1 : g.dropWhile pyIsWs = [] := List.dropWhile_eq_nil_iff.mpr h
  simp [pyStrip, pyStripL, h1]

/-- A parameter string that strips to nothing parses to no parameters. -/
theorem splitParams_of_blank {ps : String} (h : pyStrip ps = "") : splitParams ps = [] := by
  have hall : ∀ c ∈ ps.data, pyIsWs c = true := by
    apply pyIsWs_of_pyStripL_nil
    exact congrArg String.data h
  rw [splitParams, List.filter_eq_nil]
  intro a ha
  obtain ⟨g, hg, rfl⟩ := List.mem_map.mp ha
  have : pyStrip ⟨g⟩ = "" :=
    pyStrip_eq_empty_of_all_ws (fun c hc => hall c (splitOn1_mem_subset hg hc))
  simp [this]

/-- Cutting at a closing parenthesis is the identity when none occurs. -/
theorem cutRparenL_id {l : List Char} (h : ∀ c ∈ l, ¬ c = ')') : cutRparenL l = l := by
  induction l with
  | nil => rfl
  | cons c t ih =>
    simp only [cutRparenL]
    rw [if_neg (h c (List.mem_cons_self c t)), ih (fun d hd => h d (List.mem_cons_of_mem c hd))]

/-- The parameter group captured by the function-signature regex
contains no closing parenthesis (it is the maximal run of `[^)]`). -/
theorem tryFuncSig_ps {b : Bool} {cs nm ps : List Char}
    (h : tryFuncSig b cs = some (nm, ps)) : ∀ c ∈ ps, ¬ c = ')' := by
  simp only [tryFuncSig, List.span_eq_take_drop] at h
  repeat' split at h
  all_goals try exact Option.noConfusion h
  all_goals injection h with hp
  all_goals rw [Prod.mk.injEq] at hp
  all_goals obtain ⟨h1, h2⟩ := hp
  all_goals subst h2
  all_goals intro c hc
  all_goals have hq := List.mem_takeWhile_imp hc
  all_goals simpa using hq

/-- A successful search has a successful position match. -/
theorem searchL_some_exists {α : Type} {f : List Char → Option α} :
    ∀ {cs : List Char} {r : α}, searchL f cs = some r → ∃ t, f t = some r := by
  intro cs
  induction cs with
  | nil => intro r h; exact ⟨[], by simpa [searchL] using h⟩
  | cons c ct ih =>
    intro r h
    simp only [searchL] at h
    split at h
    · rename_i val heq
      rw [Option.some_inj] at h
      exact ⟨c :: ct, by rw [heq, h]⟩
    · exact ih h

/-- The captured parameter group of the strict signature search is
unchanged by the closing-parenthesis cut of _find_long_methods. -/
theorem funcSigSearchStrict_cut {s : String} {nm ps : String}
    (h : funcSigSearchStrict s = some (nm, ps)) : cutRparenL ps.data = ps.data := by
  simp only [funcSigSearchStrict] at h
  repeat' split at h
  all_goals try exact Option.noConfusion h
  all_goals rename_i heq
  all_goals injection h with hp
  all_goals rw [Prod.mk.injEq] at hp
  all_goals obtain ⟨h1, h2⟩ := hp
  all_goals subst h2
  all_goals obtain ⟨t, hf⟩ := searchL_some_exists heq
  all_goals exact cutRparenL_id (tryFuncSig_ps hf)

/-- The brace scan of _find_long_methods never finds a balanced end on a
one-line file when starting unbalanced. -/
theorem braceGo_singleton (l : String) (j : Nat) (bc : Int) :
    braceGo [l] j bc false = none := by
  simp only [braceGo]
  by_cases hb : bc + (chCount chOpen l : Int) - (chCount chClose l : Int) > 0
  · have hne : ¬(bc + (chCount chOpen l : Int) - (chCount chClose l : Int) = 0) := by omega
    simp [hb, hne, braceGo]
  · simp [hb, braceGo]

/-- On a one-line file the method-end scan defaults to the start line. -/
theorem methodEnd_singleton (l : String) : methodEndScan [l] 0 = 0 := by
  simp [methodEndScan, braceGo_singleton]

/-- On a one-line file, the _find_long_methods pass emits exactly one
long_parameter_list issue iff the strict-signature parameter parse has
more than four entries (and no long_method issue, since the one-line
method length is 1). -/
theorem find_long_methods_singleton (l : String) (nm ps : String)
    (h : funcSigSearchStrict (pyStrip l) = some (nm, ps)) :
    ((find_long_methods [l]).filter (fun iss => iss.type == "long_parameter_list")).length =
      if 4 < (splitParams ps).length then 1 else 0 := by
  have hcut := funcSigSearchStrict_cut h
  have hstr : (⟨ps.data⟩ : String) = ps := rfl
  by_cases hg : pyStrip ps = ""
  · have h0 : splitParams ps = [] := splitParams_of_blank hg
    simp [find_long_methods, List.enum, List.enumFrom, long_method_issues_at, h, hg, h0,
      methodEnd_singleton]
  · by_cases h4 : 4 < (splitParams ps).length
    all_goals simp [find_long_methods, List.enum, List.enumFrom, long_method_issues_at, h,
      methodEnd_singleton, hg, hcut, hstr, h4]

/-- On a one-line file, the _find_long_parameter_lists pass emits
exactly one issue iff its parameter parse has more than five entries. -/
theorem find_lpl_singleton (l : String) (nm ps : String)
    (h : funcSigSearch l = some (nm, ps)) :
    ((find_long_parameter_lists [l]).filter
        (fun iss => iss.type == "long_parameter_list")).length =
      if 5 < (splitParams ps).length then 1 else 0 := by
  by_cases hg : pyStrip ps = ""
  · have h0 : splitParams ps = [] := splitParams_of_blank hg
    simp [find_long_parameter_lists, List.enum, List.enumFrom, long_param_list_issues_at,
      h, hg, h0]
  · by_cases h5 : 5 < (splitParams ps).length
    all_goals simp [find_long_parameter_lists, List.enum, List.enumFrom,
      long_param_list_issues_at, h, hg, h5]

/-- A list none of whose members has the probed type contributes no
filtered issues. -/
theorem filter_type_len_zero {L : List CodeIssue} {t : String}
    (hL : ∀ iss ∈ L, ¬ iss.type = t) :
    (L.filter (fun iss => iss.type == t)).length = 0 := by
  rw [List.length_eq_zero, List.filter_eq_nil]
  intro a ha
  simp [hL a ha]

/-- C2 amended: for a one-line function declaration matched by both
signature regexes, the detailed scan yields one long_parameter_list
issue from the long-method pass iff more than four parameters parse
(threshold greater than 4), plus one from the long-parameter pass iff
more than five parse (threshold greater than 5) — so five parameters
yield one issue and six yield two, not zero and one. -/
theorem C2_param_boundary_amended (l : String) (n1 ps1 n2 ps2 : String)
    (h1 : funcSigSearchStrict (pyStrip l) = some (n1, ps1))
    (h2 : funcSigSearch l = some (n2, ps2)) :
    ((detect_detailed_issues [l]).filter
        (fun iss => iss.type == "long_parameter_list")).length =
      (if 4 < (splitParams ps1).length then 1 else 0) +
      (if 5 < (splitParams ps2).length then 1 else 0) := by
  rw [detect_detailed_issues]
  repeat rw [List.filter_append, List.length_append]
  rw [find_long_methods_singleton l n1 ps1 h1, find_lpl_singleton l n2 ps2 h2]
  rw [filter_type_len_zero (fun iss hiss => by
    have := find_complex_methods_types hiss; simp [this])]
  rw [filter_type_len_zero (fun iss hiss => by
    have := find_naming_issues_types hiss; simp [this])]
  rw [filter_type_len_zero (fun iss hiss => by
    have := find_uncommented_methods_types hiss; simp [this])]
  rw [filter_type_len_zero (fun iss hiss => by
    have := find_sql_injection_risks_types hiss; simp [this])]
  rw [filter_type_len_zero (fun iss hiss => by
    rcases find_security_issues_types hiss with h | h | h | h <;> simp [h])]
  rw [filter_type_len_zero (fun iss hiss => by
    rcases find_code_quality_issues_types hiss with h | h | h | h | h <;> simp [h])]
  rw [filter_type_len_zero (fun iss hiss => by
    rcases find_logic_errors_types hiss with h | h | h | h | h | h | h <;> simp [h])]
  rw [filter_type_len_zero (fun iss hiss => by
    rcases find_performance_issues_types hiss with h | h | h | h | h <;> simp [h])]
  omega

/-- C2 amended witness: the six-parameter one-line declaration yields
two long_parameter_list issues in the detailed scan. -/
theorem C2_param_boundary_amended_witness :
    ((detect_detailed_issues [declSix]).filter
        (fun iss => iss.type == "long_parameter_list")).length = 2 := by
  rw [C2_param_boundary_amended declSix "doWork" "$a, $b, $c, $d, $e, $f"
    "doWork" "$a, $b, $c, $d, $e, $f" (by decide) (by decide)]
  decide

/-- C2 counterexample: scanning a function with exactly five parsed
parameters yields one long_parameter_list issue (the claim says none),
and six parsed parameters yield two (the claim says exactly one): the
long-method pass triggers at more than four parameters and the
long-parameter pass at more than five. -/
theorem C2_param_boundary_counterexample :
    ((detect_detailed_issues [declFive, strClose]).filter
        (fun iss => iss.type == "long_parameter_list")).length = 1 ∧
      ¬ ((detect_detailed_issues [declFive, strClose]).filter
        (fun iss => iss.type == "long_parameter_list")).length = 0 ∧
      ((detect_detailed_issues [declSix, strClose]).filter
        (fun iss => iss.type == "long_parameter_list")).length = 2 ∧
      ¬ ((detect_detailed_issues [declSix, strClose]).filter
        (fun iss => iss.type == "long_parameter_list")).length = 1 :=
  ⟨by decide, by decide, by decide, by decide⟩

/-- C9 (code bug): the naming-violation detector is specified to never
report reserved super-global variable names, but the findall pattern
captures the name with its leading underscore (e.g. _POST) while the
exclusion list holds the names without it (POST), so a line reading
$_POST is reported as an info-severity naming violation. -/
theorem C9_superglobal_naming_bug :
    (find_naming_issues [superglobalDemoLine]).map
      (fun iss => (iss.type, iss.severity, iss.message)) =
      [("naming_violation", "info", "变量名违反约定: \x27\\$_POST\x27")] := by decide

/-- The per-class while loop of the inheritance-depth computation never
leaves the A/B cycle: for every fuel bound it runs out of fuel. -/
theorem inherit_depth_loop_cycle (fuel : Nat) :
    ∀ nm : String, (nm = "A" ∨ nm = "B") → ∀ d : Nat,
      inherit_depth_loop fuel cycleClasses (some nm) d = none := by
  induction fuel with
  | zero =>
    intro nm _ d
    simp [inherit_depth_loop]
  | succ f ih =>
    intro nm h d
    rcases h with rfl | rfl
    · have hf : cycleClasses.find? (fun other => other.name == "A") =
        some { name := "A", extendsName := some "B", implementsNames := [],
               methods := [], properties := 0 } := by decide
      simp only [inherit_depth_loop, cycleClasses] at hf ⊢
      rw [hf]
      exact ih "B" (Or.inr rfl) (d + 1)
    · have hf : cycleClasses.find? (fun other => other.name == "B") =
        some { name := "B", extendsName := some "A", implementsNames := [],
               methods := [], properties := 0 } := by decide
      simp only [inherit_depth_loop, cycleClasses] at hf ⊢
      rw [hf]
      exact ih "A" (Or.inl rfl) (d + 1)

/-- C10 (code bug): on a class list whose extends references form a
cycle, the inheritance-depth computation of the feature extractor never
terminates: the fueled embedding of its while loop exhausts every fuel
bound (the loop has no visited set and alternates between A and B). -/
theorem C10_inheritance_cycle_divergence (fuel : Nat) :
    calculate_inheritance_depth fuel cycleClasses = none := by
  have h := inherit_depth_loop_cycle fuel "B" (Or.inr rfl) 1
  simp only [calculate_inheritance_depth, cycleClasses, List.foldl] at h ⊢
  rw [h]

/-- C1: whenever some detailed issue has severity error and type
sql_injection_risk, the detect_smells decision returns the label
security_issues with confidence exactly 0.95, for every prediction the
model or rule scorer could have produced and regardless of any other
(e.g. warning-severity) issues present. -/
theorem C1_sql_injection_priority
    (detailed_issues : List CodeIssue) (prediction : String × ℚ)
    (h : detailed_issues.any
      (fun iss => iss.severity == "error" && iss.type == "sql_injection_risk") = true) :
    detect_smells_decision detailed_issues prediction = ("security_issues", (19 : ℚ)/20) := by
  obtain ⟨iss, hmem, hb⟩ := List.any_eq_true.mp h
  have hb' : iss.severity = "error" ∧ iss.type = "sql_injection_risk" := by simpa using hb
  have hty' : iss.type = "sql_injection_risk" := hb'.2
  have hmemf : iss ∈ detailed_issues.filter (fun i => i.severity == "error") :=
    List.mem_filter.mpr ⟨hmem, by simp [hb'.1]⟩
  have hne : (detailed_issues.filter (fun i => i.severity == "error")).isEmpty = false := by
    cases hfe : detailed_issues.filter (fun i => i.severity == "error") with
    | nil => rw [hfe] at hmemf; exact absurd hmemf (List.not_mem_nil _)
    | cons a l => rfl
  have hany : ((detailed_issues.filter (fun i => i.severity == "error")).map
      (fun i => i.type)).any
      (fun t => strIn "sql_injection" t || strIn "xss" t || strIn "security" t) = true := by
    refine List.any_eq_true.mpr ⟨iss.type, List.mem_map_of_mem _ hmemf, ?_⟩
    rw [hty']
    decide
  simp only [detect_smells_decision, determine_critical_smell_type, hne, hany,
    Bool.false_eq_true, if_false, if_true]

/-- C1 witness: the detailed issues produced by scanning the concrete
unsafe SQL line classify as security_issues at confidence 0.95 even
though the prediction argument says clean. -/
theorem C1_sql_injection_priority_witness :
    detect_smells_decision (find_sql_injection_risks [sqlDemoBad]) ("clean", (4 : ℚ)/5) =
      ("security_issues", (19 : ℚ)/20) :=
  C1_sql_injection_priority (find_sql_injection_risks [sqlDemoBad]) ("clean", (4 : ℚ)/5)
    (by decide)

/-- C3 counterexample: a scan whose only error-severity issue is the
performance-pattern type query_in_loop (produced by the performance
detector on a loop containing a query) is labelled logic_errors, not
performance_issues: the infinite-loop branch of
_determine_critical_smell_type tests the substring loop, which
query_in_loop contains. -/
theorem C3_query_in_loop_counterexample :
    (find_performance_issues loopDemoLines).map (fun iss => (iss.type, iss.severity)) =
        [("query_in_loop", "error")] ∧
      (detect_smells_decision (find_performance_issues loopDemoLines) ("clean", (4 : ℚ)/5)).1 =
        "logic_errors" ∧
      ("logic_errors" : String) ≠ "performance_issues" :=
  ⟨by decide, by decide, by decide⟩

/-- C3 amended: when a scan has at least one error-severity issue and
every error-severity issue has the performance-pattern type
query_in_loop (the only performance-pattern error type the detectors
produce), the decision labels the file logic_errors with confidence
0.95, whatever warning- or info-severity issues the scan also contains:
the substring test loop of the infinite-loop branch fires before the
performance branch is reached. -/
theorem C3_query_in_loop_amended
    (detailed_issues : List CodeIssue) (prediction : String × ℚ)
    (hne : (detailed_issues.filter (fun iss => iss.severity == "error")).isEmpty = false)
    (hall : detailed_issues.all
      (fun iss => !(iss.severity == "error") || iss.type == "query_in_loop") = true) :
    detect_smells_decision detailed_issues prediction = ("logic_errors", (19 : ℚ)/20) := by
  have htype : ∀ a ∈ detailed_issues.filter (fun iss => iss.severity == "error"),
      a.type = "query_in_loop" := by
    intro a ha
    obtain ⟨hmem, hsev⟩ := List.mem_filter.mp ha
    have hc := List.all_eq_true.mp hall a hmem
    simp only [hsev, Bool.not_true, Bool.false_or, beq_iff_eq] at hc
    exact hc
  have hsec : ((detailed_issues.filter (fun iss => iss.severity == "error")).map
        (fun i => i.type)).any
      (fun t => strIn "sql_injection" t || strIn "xss" t || strIn "security" t) = false := by
    refine List.any_eq_false.mpr ?_
    intro t ht
    obtain ⟨iss, hiss, rfl⟩ := List.mem_map.mp ht
    rw [htype iss hiss]
    decide
  have hloop : ((detailed_issues.filter (fun iss => iss.severity == "error")).map
        (fun i => i.type)).any
      (fun t => strIn "infinite" t || strIn "loop" t) = true := by
    cases hd : detailed_issues.filter (fun iss => iss.severity == "error") with
    | nil => rw [hd] at hne; exact absurd hne (by decide)
    | cons a l =>
      refine List.any_eq_true.mpr ⟨a.type, ?_, ?_⟩
      · exact List.mem_map_of_mem _ (hd ▸ List.mem_cons_self a l)
      · rw [htype a (hd ▸ List.mem_cons_self a l)]
        decide
  simp only [detect_smells_decision, determine_critical_smell_type, hne, hsec, hloop,
    Bool.false_eq_true, if_false, if_true]

/-- C3 amended witness: applying the amended theorem to the full
ten-detector scan of the concrete N+1 loop file, whose issue list also
contains warning-severity issues next to the query_in_loop error. -/
theorem C3_query_in_loop_amended_witness :
    detect_smells_decision (detect_detailed_issues loopDemoLines) ("clean", (4 : ℚ)/5) =
      ("logic_errors", (19 : ℚ)/20) :=
  C3_query_in_loop_amended (detect_detailed_issues loopDemoLines) ("clean", (4 : ℚ)/5)
    (by decide) (by decide)

/-- C5: a line on which some SQL verb is followed by a variable
interpolation pattern (the sql_patterns disjunction) and which carries
no binding marker yields exactly one sql_injection_risk error issue at
that line; any line carrying a binding marker (prepare, bindParam,
bindValue, PDO::PARAM or a question mark) yields none. -/
theorem C5_sql_detector :
    (∀ line : String, sql_pattern_hit (pyStrip line) = true → sql_bind_hit (pyStrip line) = false →
      (find_sql_injection_risks [line]).map (fun iss => (iss.type, iss.severity, iss.line_number)) =
        [("sql_injection_risk", "error", 1)]) ∧
    (∀ line : String, sql_bind_hit (pyStrip line) = true →
      find_sql_injection_risks [line] = []) := by
  constructor
  · intro line h1 h2
    simp [find_sql_injection_risks, List.enum, List.enumFrom, sql_issues_at, h1, h2]
  · intro line h
    simp [find_sql_injection_risks, List.enum, List.enumFrom, sql_issues_at, h]

/-- C5 witness: the specification's concrete unsafe line yields exactly
the one issue, and its prepared-statement rewrite yields none. -/
theorem C5_sql_detector_witness :
    (find_sql_injection_risks [sqlDemoBad]).map
        (fun iss => (iss.type, iss.severity, iss.line_number)) =
        [("sql_injection_risk", "error", 1)] ∧
      find_sql_injection_risks [sqlDemoSafe] = [] :=
  ⟨C5_sql_detector.1 sqlDemoBad (by decide) (by decide),
   C5_sql_detector.2 sqlDemoSafe (by decide)⟩

/-- C7 counterexample: the suggestion list is assembled with
list(set(...))[:5], so the reverse of the deduplicated pool is an
admissible output of _generate_suggestions, yet it is not in
first-occurrence order as the claim states. -/
theorem C7_suggestions_counterexample :
    suggestions_admissible c7DemoIssues "long_method"
        ((generate_suggestions_pool c7DemoIssues "long_method").dedup.reverse) ∧
      (generate_suggestions_pool c7DemoIssues "long_method").dedup.reverse ≠
        (dedupFirstOcc (generate_suggestions_pool c7DemoIssues "long_method")).take 5 :=
  ⟨⟨(generate_suggestions_pool c7DemoIssues "long_method").dedup.reverse,
    List.reverse_perm _, by decide⟩, by decide⟩

/-- C7 amended: every admissible output of _generate_suggestions is
duplicate-free and has at most five entries; its order is the
unspecified hash-set iteration order, not necessarily first-occurrence
order. -/
theorem C7_suggestions_amended (issues : List SpecificIssue) (smell_type : String)
    (out : List String) (h : suggestions_admissible issues smell_type out) :
    out.Nodup ∧ out.length ≤ 5 := by
  obtain ⟨p, hperm, rfl⟩ := h
  have hp : p.Nodup := hperm.nodup_iff.mpr (List.nodup_dedup _)
  exact ⟨(List.take_sublist 5 p).nodup hp, List.length_take_le 5 p⟩

/-- C7 amended witness: a concrete admissible output (the deduplicated
pool itself) is duplicate-free and within the cap. -/
theorem C7_suggestions_amended_witness :
    ((generate_suggestions_pool c7DemoIssues "long_method").dedup.take 5).Nodup ∧
      ((generate_suggestions_pool c7DemoIssues "long_method").dedup.take 5).length ≤ 5 :=
  C7_suggestions_amended c7DemoIssues "long_method" _ ⟨_, List.Perm.refl _, rfl⟩

/-- C8: given that the bundled tokenizer script exits nonzero when the
input file is missing (so a successful zero-exit parse implies the file
exists), parse_file errors with the not-found error iff the path is
absent from the file system; on every existing file it returns a value,
and it returns the fallback _simple_parse result whenever the php
binary is unavailable, the 30-second budget expires, the process exits
nonzero, or its output fails JSON decoding. -/
theorem C8_parse_totality (fs : String → Option String) (backend : BackendOutcome) (path : String)
    (hscript : ∀ d : ParseDict, backend = BackendOutcome.exited (some d) 0 →
      (fs path).isSome = true) :
    (parse_file fs backend path = Except.error ParseErr.fileNotFound ↔ fs path = none) ∧
    (∀ content, fs path = some content →
      (∃ d, parse_file fs backend path = Except.ok d) ∧
      (backend = BackendOutcome.unavailable →
        parse_file fs backend path = Except.ok (simple_parse content)) ∧
      (backend = BackendOutcome.timeout →
        parse_file fs backend path = Except.ok (simple_parse content)) ∧
      (∀ p rc, backend = BackendOutcome.exited p rc → rc ≠ 0 →
        parse_file fs backend path = Except.ok (simple_parse content)) ∧
      (∀ rc, backend = BackendOutcome.exited none rc →
        parse_file fs backend path = Except.ok (simple_parse content))) := by
  cases backend with
  | unavailable =>
    cases h : fs path with
    | none => simp [parse_file, simple_parse_file, h]
    | some c => simp [parse_file, simple_parse_file, h]
  | timeout =>
    cases h : fs path with
    | none => simp [parse_file, simple_parse_file, h]
    | some c => simp [parse_file, simple_parse_file, h]
  | exited parsed rc =>
    by_cases hrc : rc = 0
    · subst hrc
      cases parsed with
      | some d =>
        have hsome := hscript d rfl
        cases h : fs path with
        | none => rw [h] at hsome; exact absurd hsome (by decide)
        | some c =>
          constructor
          · simp [parse_file]
          · intro content hcontent
            refine ⟨⟨d, by simp [parse_file]⟩, ?_, ?_, ?_, ?_⟩
            · intro hb; exact nomatch hb
            · intro hb; exact nomatch hb
            · intro p rc' heq hne
              injection heq with h1 h2
              exact absurd h2.symm hne
            · intro rc' heq
              injection heq with h1 h2
              exact Option.noConfusion h1
      | none =>
        cases h : fs path with
        | none => simp [parse_file, simple_parse_file, h]
        | some c =>
          constructor
          · simp [parse_file, simple_parse_file, h]
          · intro content hcontent
            injection hcontent with hc
            subst hc
            refine ⟨⟨simple_parse c, by simp [parse_file, simple_parse_file, h]⟩, ?_, ?_, ?_, ?_⟩
            · intro hb; exact nomatch hb
            · intro hb; exact nomatch hb
            · intro p rc' _ _
              simp [parse_file, simple_parse_file, h]
            · intro rc' _
              simp [parse_file, simple_parse_file, h]
    · cases h : fs path with
      | none => simp [parse_file, simple_parse_file, h, hrc]
      | some c =>
        constructor
        · simp [parse_file, simple_parse_file, h, hrc]
        · intro content hcontent
          injection hcontent with hc
          subst hc
          refine ⟨⟨simple_parse c, by simp [parse_file, simple_parse_file, h, hrc]⟩, ?_, ?_, ?_, ?_⟩
          · intro hb; exact nomatch hb
          · intro hb; exact nomatch hb
          · intro p rc' _ _
            simp [parse_file, simple_parse_file, h, hrc]
          · intro rc' _
            simp [parse_file, simple_parse_file, h, hrc]

/-- C6: scanning the concrete catch head line immediately followed by
any line containing only a closing brace yields exactly one
empty_catch_block error issue located at the catch line; the same catch
block with a logging call on its first body line yields no issue at all
from the logic-error detector. -/
theorem C6_empty_catch_detector :
    (∀ l2 : String, pyStrip l2 = strClose →
      (find_logic_errors [catchDemoLine, l2]).map
        (fun iss => (iss.type, iss.severity, iss.line_number)) =
        [("empty_catch_block", "error", 1)]) ∧
    find_logic_errors [catchDemoLine, loggingDemoLine, strClose] = [] := by
  constructor
  · intro l2 h
    have hcat : pyStrip catchDemoLine = catchDemoLine := by decide
    have e1 : whileTrueHit catchDemoLine = false := by decide
    have e2 : forOuterHit catchDemoLine = false := by decide
    have e3 : funcNameSearchCS catchDemoLine = none := by decide
    have e4 : catchParenHit catchDemoLine = true := by decide
    have e5 : whileParenHit catchDemoLine = false := by decide
    have e6 : divVarHit catchDemoLine = false := by decide
    have e7 : arrIdxHit catchDemoLine = false := by decide
    have e8 : fileOpHit catchDemoLine = false := by decide
    have f1 : whileTrueHit strClose = false := by decide
    have f2 : forOuterHit strClose = false := by decide
    have f3 : funcNameSearchCS strClose = none := by decide
    have f4 : catchParenHit strClose = false := by decide
    have f5 : whileParenHit strClose = false := by decide
    have f6 : divVarHit strClose = false := by decide
    have f7 : arrIdxHit strClose = false := by decide
    have f8 : fileOpHit strClose = false := by decide
    simp [find_logic_errors, List.enum, List.enumFrom, logic_issues_at, List.getD,
      h, hcat, e1, e2, e3, e4, e5, e6, e7, e8, f1, f2, f3, f4, f5, f6, f7, f8]
  · decide

/-- C6 witness: the general half applied to an indented closing-brace
line. -/
theorem C6_empty_catch_detector_witness :
    (find_logic_errors [catchDemoLine, "  " ++ strClose]).map
      (fun iss => (iss.type, iss.severity, iss.line_number)) =
      [("empty_catch_block", "error", 1)] :=
  C6_empty_catch_detector.1 ("  " ++ strClose) (by decide)

/-- C8 witness: on the demo file system, a timed-out backend falls back
to _simple_parse, which recovers the class declared in the content. -/
theorem C8_parse_totality_witness :
    parse_file demoFs BackendOutcome.timeout "demo.php" = Except.ok (simple_parse demoPhpContent) ∧
      (simple_parse demoPhpContent).classes.map PClass.name = ["UserService"] :=
  ⟨((C8_parse_totality demoFs BackendOutcome.timeout "demo.php"
      (fun _ hd => nomatch hd)).2 demoPhpContent (by decide)).2.2.1 rfl,
   by decide⟩

/-- Stepping the complex-method scan over the method declaration line
starts a method named processData with nesting counters reset. -/
theorem complexGo_declStep (lines : List String) (rest : List (Nat × String))
    (i s m c : Nat) (nm : String) :
    complexGo lines ((i, declNested) :: rest) false s nm m c =
      complexGo lines rest true i "processData" 0 0 := by
  simp only [complexGo]
  simp [show funcOpenSearch (pyStrip declNested) = some "processData" from by decide,
        show hasControlKw (pyStrip declNested) = false from by decide,
        show startsWithCloseBrace (pyStrip declNested) = false from by decide]

/-- Stepping the scan over one nested-if line inside a method increments
both nesting counters when they agree. -/
theorem complexGo_ifStep (lines : List String) (rest : List (Nat × String))
    (i s c : Nat) (nm : String) :
    complexGo lines ((i, nestedIfLine) :: rest) true s nm c c =
      complexGo lines rest true s nm (c+1) (c+1) := by
  simp only [complexGo]
  simp [show funcOpenSearch (pyStrip nestedIfLine) = none from by decide,
        show hasControlKw (pyStrip nestedIfLine) = true from by decide,
        show startsWithCloseBrace (pyStrip nestedIfLine) = false from by decide,
        Nat.max_eq_right (Nat.le_succ c)]

/-- Stepping the scan over the echo body line changes nothing. -/
theorem complexGo_echoStep (lines : List String) (rest : List (Nat × String))
    (i s m c : Nat) (nm : String) :
    complexGo lines ((i, echoDemoLine) :: rest) true s nm m c =
      complexGo lines rest true s nm m c := by
  simp only [complexGo]
  simp [show funcOpenSearch (pyStrip echoDemoLine) = none from by decide,
        show hasControlKw (pyStrip echoDemoLine) = false from by decide,
        show startsWithCloseBrace (pyStrip echoDemoLine) = false from by decide]

/-- A run of k nested-if lines raises both nesting counters by k. -/
theorem complexGo_ifRun (lines : List String) (k : Nat) :
    ∀ (i s c : Nat) (nm : String) (rest : List (Nat × String)),
    complexGo lines (List.enumFrom i (List.replicate k nestedIfLine) ++ rest) true s nm c c =
      complexGo lines rest true s nm (c + k) (c + k) := by
  induction k with
  | zero => intro i s c nm rest; simp
  | succ k ih =>
    intro i s c nm rest
    rw [List.replicate_succ, List.enumFrom_cons, List.cons_append, complexGo_ifStep, ih]
    have h1 : c + 1 + k = c + (k + 1) := by omega
    rw [h1]

/-- A closing brace seen with nesting t+2 just decrements the current
nesting. -/
theorem complexGo_closeStep (lines : List String) (rest : List (Nat × String))
    (i s m t : Nat) (nm : String) :
    complexGo lines ((i, strClose) :: rest) true s nm m (t+2) =
      complexGo lines rest true s nm m (t+1) := by
  simp only [complexGo]
  simp [show funcOpenSearch (pyStrip strClose) = none from by decide,
        show hasControlKw (pyStrip strClose) = false from by decide,
        show startsWithCloseBrace (pyStrip strClose) = true from by decide]

/-- A run of t closing braces takes the current nesting from t+1 down
to 1 without ending the method. -/
theorem complexGo_closeDescent (lines : List String) (t : Nat) :
    ∀ (i s m : Nat) (nm : String) (rest : List (Nat × String)),
    complexGo lines (List.enumFrom i (List.replicate t strClose) ++ rest) true s nm m (t+1) =
      complexGo lines rest true s nm m 1 := by
  induction t with
  | zero => intro i s m nm rest; simp
  | succ t ih =>
    intro i s m nm rest
    rw [List.replicate_succ, List.enumFrom_cons, List.cons_append, complexGo_closeStep, ih]

/-- The closing brace that brings the nesting to 0 ends the method and
emits a complex_method issue exactly when the maximal nesting exceeds 4. -/
theorem complexGo_closeFinal (lines : List String) (rest : List (Nat × String))
    (i s m : Nat) (nm : String) :
    (complexGo lines ((i, strClose) :: rest) true s nm m 1).map issueKey =
      (if 4 < m then [("complex_method", "error", s+1)] else []) ++
        (complexGo lines rest false s nm m 0).map issueKey := by
  simp only [complexGo]
  rw [show funcOpenSearch (pyStrip strClose) = none from by decide]
  simp only [show hasControlKw (pyStrip strClose) = false from by decide,
             show startsWithCloseBrace (pyStrip strClose) = true from by decide,
             if_false, Bool.false_eq_true, ite_false, Bool.true_and]
  by_cases hm : 4 < m <;> simp [hm, issueKey]

/-- The scan ignores every line while not inside a method when no line
opens one; specialised to a run of closing braces. -/
theorem complexGo_closeTail (lines : List String) (j : Nat) :
    ∀ (i s m c : Nat) (nm : String),
    complexGo lines (List.enumFrom i (List.replicate j strClose)) false s nm m c = [] := by
  induction j with
  | zero => intro i s m c nm; simp [complexGo]
  | succ j ih =>
    intro i s m c nm
    rw [List.replicate_succ, List.enumFrom_cons]
    simp only [complexGo]
    simp [show funcOpenSearch (pyStrip strClose) = none from by decide, ih]

/-- C4: scanning a method of n sequentially nested if blocks and no
early return yields exactly one complex_method issue of severity error
(at the declaration line) when n exceeds 4, and none when n is 4 or
fewer; in particular n = 5 yields exactly one and any n at most 4 yields
none. -/
theorem C4_nesting_depth (n : Nat) :
    (find_complex_methods (mkNestedIfMethod n)).map issueKey =
      if 4 < n then [("complex_method", "error", 1)] else [] := by
  cases n with
  | zero => decide
  | succ t =>
    unfold find_complex_methods mkNestedIfMethod
    rw [List.enum_cons, complexGo_declStep, List.enumFrom_append, complexGo_ifRun]
    simp only [Nat.zero_add]
    rw [show List.replicate (t+1+1) strClose = List.replicate t strClose ++ List.replicate 2 strClose
          from by rw [← List.replicate_add]]
    rw [List.enumFrom_cons, complexGo_echoStep, List.enumFrom_append, complexGo_closeDescent]
    rw [show List.replicate 2 strClose = strClose :: List.replicate 1 strClose from rfl]
    rw [List.enumFrom_cons, complexGo_closeFinal, complexGo_closeTail]
    simp
